import Mathlib

/-!
Shallow embedding of the ride-service core of the `break-the-monolith`
repository (`services/ride_service/app/crud.py` and
`services/ride_service/app/api.py`), together with proofs about its
matching, lifecycle and fare-calculation behaviour.

Modelling conventions:
* UUIDs are modelled as naturals drawn from a per-database counter
  (`DB.nextId`), which mirrors the uniqueness of database-generated keys.
* UTC instants are naturals (minutes); `datetime.utcnow()` becomes an
  explicit `now : Nat` argument threaded into every operation.
* `DECIMAL` columns and fares are exact rationals (`ℚ`).
* Each operation returns `DB × Except Err α`: the returned database is the
  post-commit state, and every error path returns the caller's database
  unchanged, mirroring `db.rollback()` on the raised exception.
* The great-circle distance (computed by `geopy.distance.geodesic` in
  `FareCalculator.calculate_distance`) is transcendental and is therefore
  passed to the operations as an explicit `distance_km` parameter; all
  downstream arithmetic is embedded exactly.
-/

/-- `models.RideStatus` from `models.py`. -/
inductive RideStatus
  | REQUESTED
  | ACCEPTED
  | DRIVER_ARRIVED
  | STARTED
  | COMPLETED
  | CANCELLED
  | PAYMENT_PENDING
  deriving DecidableEq, Repr, Inhabited

/-- `models.CancellationReason` from `models.py`. -/
inductive CancellationReason
  | RIDER_CANCELLED
  | DRIVER_CANCELLED
  | NO_DRIVER_AVAILABLE
  | PAYMENT_FAILED
  | SYSTEM_CANCELLED
  deriving DecidableEq, Repr

/-- The distinct failure outcomes of the ride-service operations.  Each
constructor corresponds to one `raise ValueError(...)` site in `crud.py` or
one `HTTPException` site in `api.py`, identified by its message. -/
inductive Err
  /-- `ValueError("Ride request not found or expired")` in `create_driver_offer`. -/
  | requestNotFoundOrExpired
  /-- `ValueError("Driver already made an offer for this ride")`. -/
  | duplicateOffer
  /-- `ValueError("Offer not found")` in `accept_offer`. -/
  | offerNotFound
  /-- `ValueError("Offer expired or inactive")` in `accept_offer`. -/
  | offerExpiredOrInactive
  /-- `ValueError("Unauthorized or request not found")` in `accept_offer`. -/
  | unauthorizedOrRequestNotFound
  /-- `ValueError("Ride not found")` / HTTP 404 "Ride not found". -/
  | rideNotFound
  /-- HTTP 403 "Access denied". -/
  | accessDenied
  /-- HTTP 400 "Cannot cancel completed or already cancelled ride". -/
  | cannotCancelTerminal
  /-- HTTP 400 "Can only rate completed rides". -/
  | canOnlyRateCompleted
  /-- HTTP 400 "Ride already rated by rider". -/
  | alreadyRatedByRider
  /-- HTTP 400 "Ride already rated by driver". -/
  | alreadyRatedByDriver
  /-- An unhandled exception (e.g. an attribute access on `None`). -/
  | internalError
  deriving DecidableEq, Repr

/-- `models.RideRequest` row. -/
structure RideRequest where
  id : Nat
  rider_id : Nat
  pickup_location : String
  pickup_latitude : ℚ
  pickup_longitude : ℚ
  drop_location : String
  drop_latitude : ℚ
  drop_longitude : ℚ
  estimated_fare : ℚ
  estimated_distance : ℚ
  estimated_duration : ℤ
  max_wait_time : Nat
  special_requirements : Option String
  expires_at : Nat
  is_active : Bool
  deriving DecidableEq, Repr

/-- `models.DriverRideOffer` row. -/
structure DriverRideOffer where
  id : Nat
  ride_request_id : Nat
  driver_id : Nat
  offered_fare : ℚ
  estimated_arrival_time : Nat
  message : Option String
  expires_at : Nat
  is_active : Bool
  is_accepted : Bool
  deriving DecidableEq, Repr, Inhabited

/-- `models.Ride` row (the columns the core reads or writes). -/
structure Ride where
  id : Nat
  rider_id : Nat
  driver_id : Nat
  pickup_location : String
  pickup_latitude : ℚ
  pickup_longitude : ℚ
  drop_location : String
  drop_latitude : ℚ
  drop_longitude : ℚ
  status : RideStatus
  estimated_fare : ℚ
  base_fare : ℚ
  distance_km : ℚ
  duration_minutes : ℤ
  special_instructions : Option String
  accepted_at : Option Nat
  driver_arrived_at : Option Nat
  started_at : Option Nat
  ended_at : Option Nat
  cancelled_at : Option Nat
  updated_at : Nat
  cancellation_reason : Option CancellationReason
  cancellation_details : Option String
  rider_rating : Option Nat
  driver_rating : Option Nat
  rider_feedback : Option String
  driver_feedback : Option String
  deriving DecidableEq, Repr, Inhabited

/-- `models.RideStatusHistory` row.  `previous_status` / `new_status` hold
the enum values written by `RideCRUD.add_status_history`. -/
structure RideStatusHistory where
  ride_id : Nat
  previous_status : Option RideStatus
  new_status : RideStatus
  changed_by : Nat
  notes : Option String
  deriving DecidableEq, Repr

/-- `models.RideTracking` row. -/
structure RideTracking where
  ride_id : Nat
  driver_id : Nat
  latitude : ℚ
  longitude : ℚ
  speed_kmh : Option ℚ
  heading : Option ℚ
  accuracy_meters : Option Nat
  deriving DecidableEq, Repr

/-- The relational store of the ride service: the four relations plus the
tracking stream, and the id counter standing in for UUID generation. -/
structure DB where
  requests : List RideRequest
  offers : List DriverRideOffer
  rides : List Ride
  status_history : List RideStatusHistory
  tracking : List RideTracking
  nextId : Nat
  deriving DecidableEq, Repr

/-- The empty store. -/
def emptyDB : DB :=
  { requests := [], offers := [], rides := [], status_history := [],
    tracking := [], nextId := 0 }

/-- `schemas.RideRequestCreate` payload. -/
structure RideRequestCreate where
  pickup_location : String
  pickup_latitude : ℚ
  pickup_longitude : ℚ
  drop_location : String
  drop_latitude : ℚ
  drop_longitude : ℚ
  max_wait_time : Nat
  special_requirements : Option String
  deriving DecidableEq, Repr

/-- `schemas.DriverOfferCreate` payload. -/
structure DriverOfferCreate where
  ride_request_id : Nat
  offered_fare : Option ℚ
  estimated_arrival_time : Nat
  message : Option String
  deriving DecidableEq, Repr

/-- `schemas.RideTrackingCreate` payload. -/
structure RideTrackingCreate where
  latitude : ℚ
  longitude : ℚ
  speed_kmh : Option ℚ
  heading : Option ℚ
  accuracy_meters : Option Nat
  deriving DecidableEq, Repr

/-- Python's `int()` conversion applied to an exact rational: truncation
toward zero. -/
def pyInt (q : ℚ) : ℤ := if 0 ≤ q then ⌊q⌋ else ⌈q⌉

/-- Python's `a or b` idiom used in `create_driver_offer` for
`offer.offered_fare or ride_request.estimated_fare`: `None` and the falsy
value `0` both fall back to the default. -/
def pyOrDefault (a : Option ℚ) (b : ℚ) : ℚ :=
  match a with
  | none => b
  | some x => if x = 0 then b else x

namespace FareCalculator

def BASE_FARE : ℚ := 30

def PER_KM_RATE : ℚ := 15

def PER_MINUTE_RATE : ℚ := 2

def SURGE_HOURS : List (Nat × Nat) := [(7, 9), (17, 19)]

def SURGE_MULTIPLIER : ℚ := 3 / 2

/-- `FareCalculator.estimate_duration`: `max(5, int(distance_km * 3))`. -/
def estimate_duration (distance_km : ℚ) : ℤ := max 5 (pyInt (distance_km * 3))

/-- The surge-multiplier loop of `FareCalculator.calculate_fare`: the first
window of `SURGE_HOURS` containing the current hour sets the multiplier. -/
def surge_for_hour (current_hour : Nat) : ℚ :=
  match SURGE_HOURS.find? (fun w => decide (w.1 ≤ current_hour ∧ current_hour < w.2)) with
  | some _ => SURGE_MULTIPLIER
  | none => 1

/-- The numeric fields of the dict returned by
`FareCalculator.calculate_fare` (the `breakdown` strings are presentation
only and are not modelled). -/
structure FareResult where
  base_fare : ℚ
  distance_fare : ℚ
  time_fare : ℚ
  subtotal : ℚ
  surge_multiplier : ℚ
  total_fare : ℚ
  deriving DecidableEq, Repr

/-- `FareCalculator.calculate_fare`; `current_hour` is `time_of_day.hour`. -/
def calculate_fare (distance_km : ℚ) (duration_minutes : ℤ) (current_hour : Nat) :
    FareResult :=
  let base_fare := BASE_FARE
  let distance_fare := distance_km * PER_KM_RATE
  let time_fare := (duration_minutes : ℚ) * PER_MINUTE_RATE
  let subtotal := base_fare + distance_fare + time_fare
  let surge_multiplier := surge_for_hour current_hour
  { base_fare := base_fare
    distance_fare := distance_fare
    time_fare := time_fare
    subtotal := subtotal
    surge_multiplier := surge_multiplier
    total_fare := subtotal * surge_multiplier }

end FareCalculator

/-- Modelled from the spec: rounding to the nearest integer, as in the
specification's `duration = max(5, round(distance_km * 3))` (the conventions
for half-integers agree with the spec's wording at every input used below). -/
def spec_round (q : ℚ) : ℤ := ⌊q + 1 / 2⌋

/-- Modelled from the spec: the duration formula as the specification words
it, `max(5, round(distance_km * 3))`, to be compared with the source's
`FareCalculator.estimate_duration`. -/
def spec_estimate_duration (distance_km : ℚ) : ℤ := max 5 (spec_round (distance_km * 3))

/-- `RideRequestCRUD.create_ride_request`.  `distance_km` is the geodesic
distance between the payload's pickup and drop coordinates and
`current_hour` the hour of the (defaulted) `time_of_day`. -/
def create_ride_request (db : DB) (now : Nat) (request : RideRequestCreate)
    (rider_id : Nat) (distance_km : ℚ) (current_hour : Nat) :
    DB × Except Err RideRequest :=
  let duration_minutes := FareCalculator.estimate_duration distance_km
  let fare_calculation := FareCalculator.calculate_fare distance_km duration_minutes current_hour
  let expires_at := now + request.max_wait_time
  let db_request : RideRequest :=
    { id := db.nextId
      rider_id := rider_id
      pickup_location := request.pickup_location
      pickup_latitude := request.pickup_latitude
      pickup_longitude := request.pickup_longitude
      drop_location := request.drop_location
      drop_latitude := request.drop_latitude
      drop_longitude := request.drop_longitude
      estimated_fare := fare_calculation.total_fare
      estimated_distance := distance_km
      estimated_duration := duration_minutes
      max_wait_time := request.max_wait_time
      special_requirements := request.special_requirements
      expires_at := expires_at
      is_active := true }
  ({ db with requests := db.requests ++ [db_request], nextId := db.nextId + 1 },
    .ok db_request)

/-- `RideRequestCRUD.deactivate_expired_requests`: flips `is_active` off for
every active request whose deadline has passed, returning the count. -/
def deactivate_expired_requests (db : DB) (now : Nat) : DB × Nat :=
  let expired := fun (r : RideRequest) => r.is_active && decide (r.expires_at ≤ now)
  ({ db with
      requests := db.requests.map (fun r =>
        if expired r then { r with is_active := false } else r) },
    (db.requests.filter expired).length)

/-- `DriverOfferCRUD.create_driver_offer`. -/
def create_driver_offer (db : DB) (now : Nat) (offer : DriverOfferCreate)
    (driver_id : Nat) : DB × Except Err DriverRideOffer :=
  match db.requests.find? (fun r =>
      r.id == offer.ride_request_id && r.is_active && decide (now < r.expires_at)) with
  | none => (db, .error .requestNotFoundOrExpired)
  | some ride_request =>
    match db.offers.find? (fun o =>
        o.ride_request_id == offer.ride_request_id && o.driver_id == driver_id &&
        o.is_active) with
    | some _ => (db, .error .duplicateOffer)
    | none =>
      let db_offer : DriverRideOffer :=
        { id := db.nextId
          ride_request_id := offer.ride_request_id
          driver_id := driver_id
          offered_fare := pyOrDefault offer.offered_fare ride_request.estimated_fare
          estimated_arrival_time := offer.estimated_arrival_time
          message := offer.message
          expires_at := now + 5
          is_active := true
          is_accepted := false }
      ({ db with offers := db.offers ++ [db_offer], nextId := db.nextId + 1 },
        .ok db_offer)

/-- The per-row effect of the acceptance commit on the offer table: the
loaded offer (`offer.is_accepted = True`) and the bulk
`.update({"is_active": False})` over every other offer of the same request. -/
def acceptUpdateOffer (offer_id : Nat) (req_id : Nat) (o : DriverRideOffer) :
    DriverRideOffer :=
  if o.id == offer_id then { o with is_accepted := true }
  else if o.ride_request_id == req_id then { o with is_active := false }
  else o

/-- The per-row effect of the acceptance commit on the request table:
`ride_request.is_active = False`. -/
def deactivateRequest (req_id : Nat) (r : RideRequest) : RideRequest :=
  if r.id == req_id then { r with is_active := false } else r

/-- `DriverOfferCRUD.accept_offer`: loads the offer, checks it is active and
unexpired, checks the calling rider owns the parent request, then in one
commit marks the offer accepted, deactivates every other offer on the same
request, and deactivates the request. -/
def accept_offer (db : DB) (now : Nat) (offer_id : Nat) (rider_id : Nat) :
    DB × Except Err DriverRideOffer :=
  match db.offers.find? (fun o => o.id == offer_id) with
  | none => (db, .error .offerNotFound)
  | some offer =>
    if !offer.is_active || decide (offer.expires_at ≤ now) then
      (db, .error .offerExpiredOrInactive)
    else
      match db.requests.find? (fun r =>
          r.id == offer.ride_request_id && r.rider_id == rider_id) with
      | none => (db, .error .unauthorizedOrRequestNotFound)
      | some _ =>
        ({ db with
            offers := db.offers.map (acceptUpdateOffer offer_id offer.ride_request_id)
            requests := db.requests.map (deactivateRequest offer.ride_request_id) },
          .ok { offer with is_accepted := true })

/-- `RideCRUD.create_ride_from_accepted_offer`: snapshots the parent request
into a new ride in status `ACCEPTED` and writes the first history entry
(previous = null, new = ACCEPTED). -/
def create_ride_from_accepted_offer (db : DB) (now : Nat) (offer : DriverRideOffer) :
    DB × Except Err Ride :=
  match db.requests.find? (fun r => r.id == offer.ride_request_id) with
  | none => (db, .error .internalError)
  | some ride_request =>
    let db_ride : Ride :=
      { id := db.nextId
        rider_id := ride_request.rider_id
        driver_id := offer.driver_id
        pickup_location := ride_request.pickup_location
        pickup_latitude := ride_request.pickup_latitude
        pickup_longitude := ride_request.pickup_longitude
        drop_location := ride_request.drop_location
        drop_latitude := ride_request.drop_latitude
        drop_longitude := ride_request.drop_longitude
        status := .ACCEPTED
        estimated_fare := offer.offered_fare
        base_fare := 30
        distance_km := ride_request.estimated_distance
        duration_minutes := ride_request.estimated_duration
        special_instructions := ride_request.special_requirements
        accepted_at := some now
        driver_arrived_at := none
        started_at := none
        ended_at := none
        cancelled_at := none
        updated_at := now
        cancellation_reason := none
        cancellation_details := none
        rider_rating := none
        driver_rating := none
        rider_feedback := none
        driver_feedback := none }
    let history : RideStatusHistory :=
      { ride_id := db.nextId
        previous_status := none
        new_status := .ACCEPTED
        changed_by := offer.driver_id
        notes := none }
    ({ db with
        rides := db.rides ++ [db_ride]
        status_history := db.status_history ++ [history]
        nextId := db.nextId + 1 },
      .ok db_ride)

/-- The `POST /offers/{offer_id}/accept` endpoint (`accept_driver_offer` in
`api.py`): `accept_offer` committed first, then
`create_ride_from_accepted_offer` as a second commit. -/
def accept_driver_offer (db : DB) (now : Nat) (offer_id : Nat) (rider_id : Nat) :
    DB × Except Err Ride :=
  match accept_offer db now offer_id rider_id with
  | (_, .error e) => (db, .error e)
  | (db1, .ok accepted_offer) =>
    match create_ride_from_accepted_offer db1 now accepted_offer with
    | (_, .error e) => (db1, .error e)
    | (db2, .ok ride) => (db2, .ok ride)

/-- The mutation `update_ride_status` performs on the loaded ride object:
set the status, refresh `updated_at`, and stamp the milestone timestamp
matching the new status (the `if`/`elif` chain of `crud.py`). -/
def setRideStatus (now : Nat) (new_status : RideStatus) (ride : Ride) : Ride :=
  { ride with
      status := new_status
      updated_at := now
      driver_arrived_at :=
        if new_status = .DRIVER_ARRIVED then some now else ride.driver_arrived_at
      started_at := if new_status = .STARTED then some now else ride.started_at
      ended_at := if new_status = .COMPLETED then some now else ride.ended_at
      cancelled_at := if new_status = .CANCELLED then some now else ride.cancelled_at }

/-- Writing one mutated row back into the ride table. -/
def replaceRide (ride_id : Nat) (ride' : Ride) (r : Ride) : Ride :=
  if r.id == ride_id then ride' else r

/-- `RideCRUD.update_ride_status`: sets the status, stamps the milestone
timestamp matching the new status, and appends one history entry. -/
def update_ride_status (db : DB) (now : Nat) (ride_id : Nat)
    (new_status : RideStatus) (user_id : Nat) (notes : Option String) :
    DB × Except Err Ride :=
  match db.rides.find? (fun r => r.id == ride_id) with
  | none => (db, .error .rideNotFound)
  | some ride =>
    let ride' := setRideStatus now new_status ride
    let history : RideStatusHistory :=
      { ride_id := ride_id
        previous_status := some ride.status
        new_status := new_status
        changed_by := user_id
        notes := notes }
    ({ db with
        rides := db.rides.map (replaceRide ride_id ride')
        status_history := db.status_history ++ [history] },
      .ok ride')

/-- The `PUT /rides/{ride_id}/status` endpoint: 404 if the ride is missing,
403 unless the caller is the ride's rider or driver, then delegates to
`update_ride_status` when a status is supplied (no terminal-state guard). -/
def update_ride_status_endpoint (db : DB) (now : Nat) (ride_id : Nat)
    (status_update : Option RideStatus) (user_id : Nat) : DB × Except Err Ride :=
  match db.rides.find? (fun r => r.id == ride_id) with
  | none => (db, .error .rideNotFound)
  | some ride =>
    if !(ride.rider_id == user_id || ride.driver_id == user_id) then
      (db, .error .accessDenied)
    else
      match status_update with
      | some new_status => update_ride_status db now ride_id new_status user_id none
      | none => (db, .ok ride)

/-- The assignments `ride.cancellation_reason = ...` /
`ride.cancellation_details = ...` performed by the cancel endpoint on the
loaded ride before it delegates to `update_ride_status`. -/
def setCancellationInfo (ride_id : Nat) (reason : CancellationReason)
    (details : Option String) (r : Ride) : Ride :=
  if r.id == ride_id then
    { r with cancellation_reason := some reason, cancellation_details := details }
  else r

/-- The `POST /rides/{ride_id}/cancel` endpoint: rejects terminal rides,
records the cancellation reason and details on the ride object, then
delegates to `update_ride_status` with status `CANCELLED` (one commit). -/
def cancel_ride (db : DB) (now : Nat) (ride_id : Nat)
    (cancellation_reason : CancellationReason) (cancellation_details : Option String)
    (user_id : Nat) : DB × Except Err Ride :=
  match db.rides.find? (fun r => r.id == ride_id) with
  | none => (db, .error .rideNotFound)
  | some ride =>
    if !(ride.rider_id == user_id || ride.driver_id == user_id) then
      (db, .error .accessDenied)
    else if ride.status = .COMPLETED ∨ ride.status = .CANCELLED then
      (db, .error .cannotCancelTerminal)
    else
      let db' : DB :=
        { db with
            rides := db.rides.map (setCancellationInfo ride_id cancellation_reason
              cancellation_details) }
      update_ride_status db' now ride_id .CANCELLED user_id cancellation_details

/-- The `POST /rides/{ride_id}/tracking` endpoint plus
`RideCRUD.add_ride_tracking`: 404 if the ride is missing, 403 unless the
caller is the assigned driver, then appends the tracking point (no check of
the ride's status). -/
def add_ride_tracking (db : DB) (ride_id : Nat) (tracking : RideTrackingCreate)
    (driver_id : Nat) : DB × Except Err RideTracking :=
  match db.rides.find? (fun r => r.id == ride_id) with
  | none => (db, .error .rideNotFound)
  | some ride =>
    if !(ride.driver_id == driver_id) then
      (db, .error .accessDenied)
    else
      let db_tracking : RideTracking :=
        { ride_id := ride_id
          driver_id := driver_id
          latitude := tracking.latitude
          longitude := tracking.longitude
          speed_kmh := tracking.speed_kmh
          heading := tracking.heading
          accuracy_meters := tracking.accuracy_meters }
      ({ db with tracking := db.tracking ++ [db_tracking] }, .ok db_tracking)

/-- The assignments `ride.rider_rating = ...` / `ride.rider_feedback = ...`
of the rating endpoint, written back to the ride table. -/
def setRiderRating (ride_id : Nat) (rating : Nat) (feedback : Option String)
    (r : Ride) : Ride :=
  if r.id == ride_id then
    { r with rider_rating := some rating, rider_feedback := feedback }
  else r

/-- The assignments `ride.driver_rating = ...` / `ride.driver_feedback = ...`
of the rating endpoint, written back to the ride table. -/
def setDriverRating (ride_id : Nat) (rating : Nat) (feedback : Option String)
    (r : Ride) : Ride :=
  if r.id == ride_id then
    { r with driver_rating := some rating, driver_feedback := feedback }
  else r

/-- The `POST /rides/{ride_id}/rate` endpoint (`rate_ride` in `api.py`). -/
def rate_ride (db : DB) (ride_id : Nat) (rating : Nat) (feedback : Option String)
    (user_id : Nat) : DB × Except Err Unit :=
  match db.rides.find? (fun r => r.id == ride_id) with
  | none => (db, .error .rideNotFound)
  | some ride =>
    if !(ride.status == .COMPLETED) then
      (db, .error .canOnlyRateCompleted)
    else if ride.rider_id == user_id then
      match ride.rider_rating with
      | some _ => (db, .error .alreadyRatedByRider)
      | none =>
        ({ db with rides := db.rides.map (setRiderRating ride_id rating feedback) },
          .ok ())
    else if ride.driver_id == user_id then
      match ride.driver_rating with
      | some _ => (db, .error .alreadyRatedByDriver)
      | none =>
        ({ db with rides := db.rides.map (setDriverRating ride_id rating feedback) },
          .ok ())
    else
      (db, .error .accessDenied)

/-- Whether an operation's outcome is a success. -/
def isOkE {α : Type} : Except Err α → Bool
  | .ok _ => true
  | .error _ => false

/-- One externally triggerable mutation of the store: the mutating endpoints
of `api.py` plus the `deactivate_expired_requests` sweep. -/
inductive Step : DB → DB → Prop
  | createRequest (db : DB) (now : Nat) (request : RideRequestCreate) (rider_id : Nat)
      (distance_km : ℚ) (current_hour : Nat) :
      Step db (create_ride_request db now request rider_id distance_km current_hour).1
  | sweep (db : DB) (now : Nat) :
      Step db (deactivate_expired_requests db now).1
  | createOffer (db : DB) (now : Nat) (offer : DriverOfferCreate) (driver_id : Nat) :
      Step db (create_driver_offer db now offer driver_id).1
  | acceptOffer (db : DB) (now : Nat) (offer_id : Nat) (rider_id : Nat) :
      Step db (accept_driver_offer db now offer_id rider_id).1
  | updateStatus (db : DB) (now : Nat) (ride_id : Nat)
      (status_update : Option RideStatus) (user_id : Nat) :
      Step db (update_ride_status_endpoint db now ride_id status_update user_id).1
  | cancel (db : DB) (now : Nat) (ride_id : Nat) (reason : CancellationReason)
      (details : Option String) (user_id : Nat) :
      Step db (cancel_ride db now ride_id reason details user_id).1
  | track (db : DB) (ride_id : Nat) (tracking : RideTrackingCreate) (driver_id : Nat) :
      Step db (add_ride_tracking db ride_id tracking driver_id).1
  | rate (db : DB) (ride_id : Nat) (rating : Nat) (feedback : Option String)
      (user_id : Nat) :
      Step db (rate_ride db ride_id rating feedback user_id).1

/-- The stores reachable from the empty store through the service's
operations. -/
inductive Reachable : DB → Prop
  | init : Reachable emptyDB
  | step {a b : DB} : Reachable a → Step a b → Reachable b

/-- The status-history entries of one ride, in insertion order. -/
def histOf (db : DB) (ride_id : Nat) : List RideStatusHistory :=
  db.status_history.filter (fun h => h.ride_id == ride_id)

/-- The chain condition on a history: each entry's `previous_status` equals
the status the replay has reached so far. -/
def chainFrom (prev : Option RideStatus) : List RideStatusHistory → Bool
  | [] => true
  | h :: rest => decide (h.previous_status = prev) && chainFrom (some h.new_status) rest

/-- The status reached after replaying a history in order. -/
def lastNew (l : List RideStatusHistory) : Option RideStatus :=
  l.getLast?.map (fun h => h.new_status)

/-- The head condition on a ride history: it is nonempty and its first
entry records the `null → ACCEPTED` creation transition. -/
def headOK : List RideStatusHistory → Bool
  | [] => false
  | h :: _ => decide (h.new_status = .ACCEPTED) && decide (h.previous_status = none)

/-- A well-formed ride history: nonempty, its first entry records
`null → ACCEPTED`, consecutive entries chain, and the replay ends at the
ride's current status. -/
def historyOK (l : List RideStatusHistory) (final : RideStatus) : Bool :=
  headOK l && chainFrom none l && decide (lastNew l = some final)

/-- The status a replay starting at `prev` has reached after `l`. -/
def endStatus (prev : Option RideStatus) : List RideStatusHistory → Option RideStatus
  | [] => prev
  | h :: t => endStatus (some h.new_status) t

/-- The core invariant of reachable stores: id freshness and uniqueness, the
single-acceptance shape of the offer set, and well-formed ride histories. -/
structure DBInv (db : DB) : Prop where
  req_lt : ∀ r ∈ db.requests, r.id < db.nextId
  offer_lt : ∀ o ∈ db.offers, o.id < db.nextId
  offer_req_lt : ∀ o ∈ db.offers, o.ride_request_id < db.nextId
  ride_lt : ∀ r ∈ db.rides, r.id < db.nextId
  hist_lt : ∀ h ∈ db.status_history, h.ride_id < db.nextId
  offers_nodup : (db.offers.map (fun o => o.id)).Nodup
  rides_nodup : (db.rides.map (fun r => r.id)).Nodup
  acc_sib : ∀ a ∈ db.offers, a.is_accepted = true → ∀ b ∈ db.offers,
      b.ride_request_id = a.ride_request_id → b.id ≠ a.id →
      b.is_active = false ∧ b.is_accepted = false
  acc_req : ∀ a ∈ db.offers, a.is_accepted = true → ∀ r ∈ db.requests,
      r.id = a.ride_request_id → r.is_active = false
  hist_ok : ∀ r ∈ db.rides, historyOK (histOf db r.id) r.status = true

/-- Fixture: the §8 request payload (rider 100, 10-minute wait). -/
def wReq : RideRequestCreate :=
  { pickup_location := "CSE Building", pickup_latitude := 237280/10000,
    pickup_longitude := 903920/10000, drop_location := "Palashi",
    drop_latitude := 237465/10000, drop_longitude := 903800/10000,
    max_wait_time := 10, special_requirements := none }

/-- Fixture: store after rider 100 creates `wReq` at time 0 (request id 0,
expires at 10). -/
def dbW1 : DB := (create_ride_request emptyDB 0 wReq 100 (26/10) 12).1

/-- Fixture: driver 200's offer payload on request 0. -/
def wOff : DriverOfferCreate :=
  { ride_request_id := 0, offered_fare := some 50, estimated_arrival_time := 3,
    message := none }

/-- Fixture: store after driver 200 offers at time 1 (offer id 1, expires
at 6). -/
def dbW2 : DB := (create_driver_offer dbW1 1 wOff 200).1

/-- Fixture: store after rider 100 accepts offer 1 at time 2 (ride id 2). -/
def dbW3 : DB := (accept_driver_offer dbW2 2 1 100).1

/-- Fixture: store after the rider drives ride 2 to `COMPLETED` at time 4. -/
def dbW4 : DB := (update_ride_status_endpoint dbW3 4 2 (some .COMPLETED) 100).1

/-- Fixture: a tracking payload. -/
def wTrack : RideTrackingCreate :=
  { latitude := 237300/10000, longitude := 903900/10000, speed_kmh := none,
    heading := none, accuracy_meters := none }

/-- Fixture: `wReq` with a 2-minute wait, so the request expires before the
offer's own 5-minute window does. -/
def wReqShort : RideRequestCreate := { wReq with max_wait_time := 2 }

/-- Fixture: store after rider 100 creates `wReqShort` at time 0 (request
id 0, expires at 2). -/
def dbX1 : DB := (create_ride_request emptyDB 0 wReqShort 100 (26/10) 12).1

/-- Fixture: store after driver 200 offers at time 1 (offer id 1, expires
at 6). -/
def dbX2 : DB := (create_driver_offer dbX1 1 wOff 200).1

/-- Fixture: store after the expiry sweep runs at time 3, deactivating
request 0 while offer 1 is still inside its own window. -/
def dbX3 : DB := (deactivate_expired_requests dbX2 3).1

/-- Fixture: the ride returned by the accepting call on `dbW2`. -/
def rideW : Ride := ((accept_driver_offer dbW2 2 1 100).2.toOption).getD default

/-- Fixture: driver 300's offer payload on request 0 with no fare supplied. -/
def wOffNoFare : DriverOfferCreate :=
  { ride_request_id := 0, offered_fare := none, estimated_arrival_time := 4,
    message := none }

/-- Fixture: the offer created from `wOffNoFare` on `dbW1` at time 1. -/
def oW : DriverRideOffer :=
  ((create_driver_offer dbW1 1 wOffNoFare 300).2.toOption).getD default

/-- Fixture: the ride row with a given id in a store. -/
def rideIn (db : DB) (rid : Nat) : Ride :=
  (db.rides.find? (fun r => r.id == rid)).getD default

/-- Fixture: store after rider 100 rates completed ride 2 with 5 stars. -/
def dbW5 : DB := (rate_ride dbW4 2 5 none 100).1

/-- Fixture: store after driver 200 also rates ride 2. -/
def dbW6 : DB := (rate_ride dbW5 2 4 (some "good") 200).1

/-- Fixture: the updated ride returned by completing ride 2 on `dbW3`. -/
def rideW4 : Ride :=
  ((update_ride_status dbW3 4 2 .COMPLETED 100 none).2.toOption).getD default

/-- Fixture: driver 300's competing offer payload on request 0. -/
def wOffB : DriverOfferCreate :=
  { ride_request_id := 0, offered_fare := some 55, estimated_arrival_time := 2,
    message := none }

/-- Fixture: store with two rival offers (id 1 by driver 200, id 2 by
driver 300) on request 0. -/
def dbW2b : DB := (create_driver_offer dbW2 1 wOffB 300).1

/-- Fixture: store after rider 100 accepts offer 1 of `dbW2b`, rejecting
driver 300's rival offer. -/
def dbW3b : DB := (accept_driver_offer dbW2b 2 1 100).1

/-- Fixture: driver 300's offer as created in `dbW2b`. -/
def offerB : DriverRideOffer :=
  ((create_driver_offer dbW2 1 wOffB 300).2.toOption).getD default

/-- Fixture: driver 300's offer row after the rival acceptance. -/
def offerBafter : DriverRideOffer :=
  (dbW3b.offers.find? (fun x => x.id == 2)).getD default

/-- Mapping a key-preserving function over a list leaves the key image
unchanged. -/
theorem map_key_of_preserve {α : Type} {f : α → α} {k : α → Nat}
    (hf : ∀ a, k (f a) = k a) (l : List α) : (l.map f).map k = l.map k := by
  induction l with
  | nil => rfl
  | cons x xs ih => simp [hf, ih]

/-- In a list whose keys are `Nodup`, two members with equal keys coincide. -/
theorem eq_of_key_nodup {α : Type} {k : α → Nat} {l : List α}
    (hnd : (l.map k).Nodup) {a b : α} (ha : a ∈ l) (hb : b ∈ l) (hk : k a = k b) :
    a = b := by
  induction l with
  | nil => cases ha
  | cons x xs ih =>
    simp only [List.map_cons, List.nodup_cons] at hnd
    rcases List.mem_cons.mp ha with rfl | ha' <;> rcases List.mem_cons.mp hb with rfl | hb'
    · rfl
    · exact absurd (hk ▸ List.mem_map_of_mem k hb') hnd.1
    · exact absurd (hk ▸ List.mem_map_of_mem k ha') hnd.1
    · exact ih hnd.2 ha' hb'

theorem endStatus_of_lastNew :
    ∀ {l : List RideStatusHistory} {s : RideStatus} (prev : Option RideStatus),
      lastNew l = some s → endStatus prev l = some s := by
  intro l
  induction l with
  | nil => intro s prev h; simp [lastNew] at h
  | cons h t ih =>
    intro s prev hl
    cases t with
    | nil =>
      simp [lastNew] at hl
      simp [endStatus, lastNew, hl]
    | cons h' t' =>
      rw [show endStatus prev (h :: h' :: t') = endStatus (some h.new_status) (h' :: t') from rfl]
      refine ih _ ?_
      simpa [lastNew, List.getLast?_cons_cons] using hl

theorem chainFrom_concat {e : RideStatusHistory} :
    ∀ {l : List RideStatusHistory} {prev : Option RideStatus},
      chainFrom prev l = true → e.previous_status = endStatus prev l →
      chainFrom prev (l ++ [e]) = true := by
  intro l
  induction l with
  | nil =>
    intro prev _ he
    simp [endStatus] at he
    simp [chainFrom, he]
  | cons h t ih =>
    intro prev hc he
    rw [show endStatus prev (h :: t) = endStatus (some h.new_status) t from rfl] at he
    simp only [chainFrom, Bool.and_eq_true, decide_eq_true_eq] at hc
    simp only [List.cons_append, chainFrom, Bool.and_eq_true, decide_eq_true_eq]
    exact ⟨hc.1, ih hc.2 he⟩

theorem headOK_concat {l : List RideStatusHistory} (e : RideStatusHistory)
    (h : headOK l = true) : headOK (l ++ [e]) = true := by
  cases l with
  | nil => simp [headOK] at h
  | cons h0 t => simpa [headOK] using h

theorem historyOK_concat {l : List RideStatusHistory} {final final' : RideStatus}
    {e : RideStatusHistory} (h : historyOK l final = true)
    (hp : e.previous_status = some final) (hn : e.new_status = final') :
    historyOK (l ++ [e]) final' = true := by
  unfold historyOK at h ⊢
  simp only [Bool.and_eq_true, decide_eq_true_eq] at h ⊢
  obtain ⟨⟨hhead, hchain⟩, hlast⟩ := h
  refine ⟨⟨headOK_concat e hhead, ?_⟩, ?_⟩
  · exact chainFrom_concat hchain (by rw [endStatus_of_lastNew none hlast, hp])
  · simp [lastNew, List.getLast?_concat, hn]

theorem historyOK_single {e : RideStatusHistory} (hp : e.previous_status = none)
    (hn : e.new_status = .ACCEPTED) : historyOK [e] .ACCEPTED = true := by
  simp [historyOK, headOK, chainFrom, lastNew, hp, hn]

theorem inv_emptyDB : DBInv emptyDB := by
  constructor <;> simp [emptyDB, histOf]

theorem nodup_append_fresh {α : Type} {k : α → Nat} {l : List α} {x : α}
    (h : (l.map k).Nodup) (hx : ∀ a ∈ l, k a ≠ k x) :
    ((l ++ [x]).map k).Nodup := by
  rw [List.map_append]
  apply List.Nodup.append h (List.nodup_singleton _)
  intro y hy hy'
  simp only [List.map_cons, List.map_nil, List.mem_singleton] at hy'
  obtain ⟨a, ha, rfl⟩ := List.mem_map.mp hy
  exact hx a ha hy'

theorem inv_append_request (db : DB) (R : RideRequest) (hid : R.id = db.nextId)
    (hI : DBInv db) :
    DBInv { db with requests := db.requests ++ [R], nextId := db.nextId + 1 } := by
  obtain ⟨h1, h2, h3, h4, h5, h6, h7, h8, h9, h10⟩ := hI
  refine ⟨?_, ?_, ?_, ?_, ?_, h6, h7, h8, ?_, h10⟩
  · intro r hr
    rcases List.mem_append.mp hr with h | h
    · exact Nat.lt_succ_of_lt (h1 r h)
    · rw [List.mem_singleton.mp h, hid]; exact Nat.lt_succ_self _
  · exact fun o ho => Nat.lt_succ_of_lt (h2 o ho)
  · exact fun o ho => Nat.lt_succ_of_lt (h3 o ho)
  · exact fun r h => Nat.lt_succ_of_lt (h4 r h)
  · exact fun h hh => Nat.lt_succ_of_lt (h5 h hh)
  · intro a ha hacc r hr hrid
    rcases List.mem_append.mp hr with h | h
    · exact h9 a ha hacc r h hrid
    · have := h3 a ha
      rw [List.mem_singleton.mp h, hid] at hrid
      omega

theorem inv_requests_map (db : DB) (f : RideRequest → RideRequest)
    (hid : ∀ r, (f r).id = r.id)
    (hact : ∀ r, r.is_active = false → (f r).is_active = false)
    (hI : DBInv db) : DBInv { db with requests := db.requests.map f } := by
  obtain ⟨h1, h2, h3, h4, h5, h6, h7, h8, h9, h10⟩ := hI
  refine ⟨?_, h2, h3, h4, h5, h6, h7, h8, ?_, h10⟩
  · intro r hr
    obtain ⟨r0, hr0, rfl⟩ := List.mem_map.mp hr
    rw [hid]; exact h1 r0 hr0
  · intro a ha hacc r hr hrid
    obtain ⟨r0, hr0, rfl⟩ := List.mem_map.mp hr
    rw [hid] at hrid
    exact hact r0 (h9 a ha hacc r0 hr0 hrid)

theorem inv_rides_map (db : DB) (v : Ride → Ride)
    (hid : ∀ r, (v r).id = r.id) (hst : ∀ r, (v r).status = r.status)
    (hI : DBInv db) : DBInv { db with rides := db.rides.map v } := by
  obtain ⟨h1, h2, h3, h4, h5, h6, h7, h8, h9, h10⟩ := hI
  refine ⟨h1, h2, h3, ?_, h5, h6, ?_, h8, h9, ?_⟩
  · intro r hr
    obtain ⟨r0, hr0, rfl⟩ := List.mem_map.mp hr
    rw [hid]; exact h4 r0 hr0
  · rw [map_key_of_preserve hid]; exact h7
  · intro r hr
    obtain ⟨r0, hr0, rfl⟩ := List.mem_map.mp hr
    rw [hid, hst]; exact h10 r0 hr0

theorem inv_tracking_set (db : DB) (t : List RideTracking) (hI : DBInv db) :
    DBInv { db with tracking := t } := by
  obtain ⟨h1, h2, h3, h4, h5, h6, h7, h8, h9, h10⟩ := hI
  exact ⟨h1, h2, h3, h4, h5, h6, h7, h8, h9, h10⟩

theorem inv_create_ride_request (db : DB) (now : Nat) (request : RideRequestCreate)
    (rider_id : Nat) (d : ℚ) (hr : Nat) (hI : DBInv db) :
    DBInv (create_ride_request db now request rider_id d hr).1 :=
  inv_append_request db _ rfl hI

theorem inv_sweep (db : DB) (now : Nat) (hI : DBInv db) :
    DBInv (deactivate_expired_requests db now).1 :=
  inv_requests_map db
    (fun r => if r.is_active && decide (r.expires_at ≤ now) then
        { r with is_active := false } else r)
    (fun r => by dsimp only; split <;> rfl)
    (fun r hr => by
      dsimp only
      split
      · rfl
      · exact hr)
    hI

theorem inv_create_driver_offer (db : DB) (now : Nat) (offer : DriverOfferCreate)
    (driver_id : Nat) (hI : DBInv db) :
    DBInv (create_driver_offer db now offer driver_id).1 := by
  unfold create_driver_offer
  cases hreq : db.requests.find? (fun r =>
      r.id == offer.ride_request_id && r.is_active && decide (now < r.expires_at)) with
  | none => exact hI
  | some ride_request =>
    cases hoff : db.offers.find? (fun o =>
        o.ride_request_id == offer.ride_request_id && o.driver_id == driver_id &&
        o.is_active) with
    | some o0 => exact hI
    | none =>
      have hmem := List.mem_of_find?_eq_some hreq
      have hpred := List.find?_some hreq
      simp only [Bool.and_eq_true, beq_iff_eq, decide_eq_true_eq] at hpred
      obtain ⟨⟨hrid, hract⟩, hrexp⟩ := hpred
      obtain ⟨h1, h2, h3, h4, h5, h6, h7, h8, h9, h10⟩ := hI
      refine ⟨?_, ?_, ?_, ?_, ?_, ?_, h7, ?_, ?_, h10⟩
      · exact fun r h => Nat.lt_succ_of_lt (h1 r h)
      · intro o ho
        rcases List.mem_append.mp ho with h | h
        · exact Nat.lt_succ_of_lt (h2 o h)
        · rw [List.mem_singleton.mp h]; exact Nat.lt_succ_self _
      · intro o ho
        rcases List.mem_append.mp ho with h | h
        · exact Nat.lt_succ_of_lt (h3 o h)
        · rw [List.mem_singleton.mp h]
          show offer.ride_request_id < db.nextId + 1
          rw [← hrid]
          exact Nat.lt_succ_of_lt (h1 ride_request hmem)
      · exact fun r h => Nat.lt_succ_of_lt (h4 r h)
      · exact fun h hh => Nat.lt_succ_of_lt (h5 h hh)
      · refine nodup_append_fresh h6 ?_
        intro a ha
        exact Nat.ne_of_lt (h2 a ha)
      · intro a ha hacc b hb hbr hne
        rcases List.mem_append.mp ha with ha' | ha'
        · rcases List.mem_append.mp hb with hb' | hb'
          · exact h8 a ha' hacc b hb' hbr hne
          · rw [List.mem_singleton.mp hb'] at hbr
            have hfalse := h9 a ha' hacc ride_request hmem (by rw [hrid]; exact hbr)
            rw [hract] at hfalse
            exact Bool.noConfusion hfalse
        · rw [List.mem_singleton.mp ha'] at hacc
          exact Bool.noConfusion hacc
      · intro a ha hacc r hr hrid'
        rcases List.mem_append.mp ha with ha' | ha'
        · exact h9 a ha' hacc r hr hrid'
        · rw [List.mem_singleton.mp ha'] at hacc
          exact Bool.noConfusion hacc

theorem acceptUpdateOffer_id (offer_id req_id : Nat) (o : DriverRideOffer) :
    (acceptUpdateOffer offer_id req_id o).id = o.id := by
  unfold acceptUpdateOffer
  split
  · rfl
  · split <;> rfl

theorem acceptUpdateOffer_rrid (offer_id req_id : Nat) (o : DriverRideOffer) :
    (acceptUpdateOffer offer_id req_id o).ride_request_id = o.ride_request_id := by
  unfold acceptUpdateOffer
  split
  · rfl
  · split <;> rfl

theorem acceptUpdateOffer_target {offer_id req_id : Nat} {o : DriverRideOffer}
    (h : o.id = offer_id) :
    acceptUpdateOffer offer_id req_id o = { o with is_accepted := true } := by
  unfold acceptUpdateOffer
  rw [if_pos (by simp [h])]

theorem acceptUpdateOffer_sibling {offer_id req_id : Nat} {o : DriverRideOffer}
    (h1 : o.id ≠ offer_id) (h2 : o.ride_request_id = req_id) :
    acceptUpdateOffer offer_id req_id o = { o with is_active := false } := by
  unfold acceptUpdateOffer
  rw [if_neg (by simp [h1]), if_pos (by simp [h2])]

theorem acceptUpdateOffer_other {offer_id req_id : Nat} {o : DriverRideOffer}
    (h1 : o.id ≠ offer_id) (h2 : o.ride_request_id ≠ req_id) :
    acceptUpdateOffer offer_id req_id o = o := by
  unfold acceptUpdateOffer
  rw [if_neg (by simp [h1]), if_neg (by simp [h2])]

theorem deactivateRequest_id (req_id : Nat) (r : RideRequest) :
    (deactivateRequest req_id r).id = r.id := by
  unfold deactivateRequest
  split <;> rfl

theorem deactivateRequest_eq {req_id : Nat} {r : RideRequest} (h : r.id = req_id) :
    deactivateRequest req_id r = { r with is_active := false } := by
  unfold deactivateRequest
  rw [if_pos (by simp [h])]

theorem deactivateRequest_ne {req_id : Nat} {r : RideRequest} (h : r.id ≠ req_id) :
    deactivateRequest req_id r = r := by
  unfold deactivateRequest
  rw [if_neg (by simp [h])]

theorem inv_accept_offer (db : DB) (now : Nat) (offer_id rider_id : Nat)
    (hI : DBInv db) : DBInv (accept_offer db now offer_id rider_id).1 := by
  unfold accept_offer
  cases hfind : db.offers.find? (fun o => o.id == offer_id) with
  | none => exact hI
  | some A =>
    dsimp only
    by_cases hguard : (!A.is_active || decide (A.expires_at ≤ now)) = true
    · rw [if_pos hguard]; exact hI
    · rw [if_neg hguard]
      cases hreq : db.requests.find? (fun r =>
          r.id == A.ride_request_id && r.rider_id == rider_id) with
      | none => exact hI
      | some R =>
        have hAmem := List.mem_of_find?_eq_some hfind
        have hAid : A.id = offer_id := by simpa using List.find?_some hfind
        have hAact : A.is_active = true := by
          cases hact : A.is_active
          · exfalso; apply hguard; rw [hact]; rfl
          · rfl
        obtain ⟨h1, h2, h3, h4, h5, h6, h7, h8, h9, h10⟩ := hI
        have hrival : ∀ c ∈ db.offers, c.is_accepted = true →
            c.ride_request_id = A.ride_request_id → c.id = offer_id := by
          intro c hc hcacc hcr
          by_contra hne
          have hAne : A.id ≠ c.id := by rw [hAid]; exact fun h => hne h.symm
          have hsib := h8 c hc hcacc A hAmem hcr.symm hAne
          rw [hAact] at hsib
          exact Bool.noConfusion hsib.1
        refine ⟨?_, ?_, ?_, h4, h5, ?_, h7, ?_, ?_, h10⟩
        · intro r hr
          obtain ⟨r0, hr0, rfl⟩ := List.mem_map.mp hr
          rw [deactivateRequest_id]; exact h1 r0 hr0
        · intro o ho
          obtain ⟨o0, ho0, rfl⟩ := List.mem_map.mp ho
          rw [acceptUpdateOffer_id]; exact h2 o0 ho0
        · intro o ho
          obtain ⟨o0, ho0, rfl⟩ := List.mem_map.mp ho
          rw [acceptUpdateOffer_rrid]; exact h3 o0 ho0
        · rw [map_key_of_preserve (acceptUpdateOffer_id offer_id A.ride_request_id)]
          exact h6
        · intro a' ha' hacc' b' hb' hbr' hne'
          obtain ⟨a, ha, rfl⟩ := List.mem_map.mp ha'
          obtain ⟨b, hb, rfl⟩ := List.mem_map.mp hb'
          rw [acceptUpdateOffer_id, acceptUpdateOffer_id] at hne'
          rw [acceptUpdateOffer_rrid, acceptUpdateOffer_rrid] at hbr'
          by_cases haid : a.id = offer_id
          · have haA : a = A := eq_of_key_nodup h6 ha hAmem (by rw [haid, hAid])
            have hbne : b.id ≠ offer_id := by rw [← haid]; exact hne'
            have hbr2 : b.ride_request_id = A.ride_request_id := by
              rw [← haA]; exact hbr'
            rw [acceptUpdateOffer_sibling hbne hbr2]
            refine ⟨rfl, ?_⟩
            cases hbacc : b.is_accepted
            · rfl
            · exact absurd (hrival b hb hbacc hbr2) hbne
          · by_cases harr : a.ride_request_id = A.ride_request_id
            · rw [acceptUpdateOffer_sibling haid harr] at hacc'
              exact absurd (hrival a ha hacc' harr) haid
            · rw [acceptUpdateOffer_other haid harr] at hacc'
              by_cases hbid : b.id = offer_id
              · have hbA : b = A := eq_of_key_nodup h6 hb hAmem (by rw [hbid, hAid])
                rw [hbA] at hbr'
                exact absurd hbr'.symm harr
              · by_cases hbrr : b.ride_request_id = A.ride_request_id
                · exact absurd (hbr'.symm.trans hbrr) harr
                · rw [acceptUpdateOffer_other hbid hbrr]
                  exact h8 a ha hacc' b hb hbr' hne'
        · intro a' ha' hacc' r' hr' hrid'
          obtain ⟨a, ha, rfl⟩ := List.mem_map.mp ha'
          obtain ⟨r, hr, rfl⟩ := List.mem_map.mp hr'
          rw [deactivateRequest_id, acceptUpdateOffer_rrid] at hrid'
          by_cases hra : r.id = A.ride_request_id
          · rw [deactivateRequest_eq hra]
          · rw [deactivateRequest_ne hra]
            by_cases haid : a.id = offer_id
            · have haA : a = A := eq_of_key_nodup h6 ha hAmem (by rw [haid, hAid])
              rw [haA] at hrid'
              exact absurd hrid' hra
            · by_cases harr : a.ride_request_id = A.ride_request_id
              · exact absurd (hrid'.trans harr) hra
              · rw [acceptUpdateOffer_other haid harr] at hacc'
                exact h9 a ha hacc' r hr hrid'

theorem hist_filter_append (l : List RideStatusHistory) (e : RideStatusHistory)
    (rid : Nat) :
    (l ++ [e]).filter (fun h => h.ride_id == rid) =
      l.filter (fun h => h.ride_id == rid) ++
        (if e.ride_id == rid then [e] else []) := by
  simp only [List.filter_append, List.filter_cons, List.filter_nil]

theorem histOf_fresh {db : DB}
    (h5 : ∀ h ∈ db.status_history, h.ride_id < db.nextId) :
    db.status_history.filter (fun h => h.ride_id == db.nextId) = [] := by
  rw [List.filter_eq_nil_iff]
  intro a ha
  simp only [beq_iff_eq]
  exact Nat.ne_of_lt (h5 a ha)

theorem inv_create_ride (db : DB) (now : Nat) (offer : DriverRideOffer)
    (hI : DBInv db) : DBInv (create_ride_from_accepted_offer db now offer).1 := by
  unfold create_ride_from_accepted_offer
  cases hreq : db.requests.find? (fun r => r.id == offer.ride_request_id) with
  | none => exact hI
  | some ride_request =>
    dsimp only
    obtain ⟨h1, h2, h3, h4, h5, h6, h7, h8, h9, h10⟩ := hI
    refine ⟨?_, ?_, ?_, ?_, ?_, h6, ?_, h8, h9, ?_⟩
    · exact fun r h => Nat.lt_succ_of_lt (h1 r h)
    · exact fun o h => Nat.lt_succ_of_lt (h2 o h)
    · exact fun o h => Nat.lt_succ_of_lt (h3 o h)
    · intro r hr
      rcases List.mem_append.mp hr with h | h
      · exact Nat.lt_succ_of_lt (h4 r h)
      · rw [List.mem_singleton.mp h]; exact Nat.lt_succ_self _
    · intro e he
      rcases List.mem_append.mp he with h | h
      · exact Nat.lt_succ_of_lt (h5 e h)
      · rw [List.mem_singleton.mp h]; exact Nat.lt_succ_self _
    · refine nodup_append_fresh h7 ?_
      intro a ha
      exact Nat.ne_of_lt (h4 a ha)
    · intro r hr
      rcases List.mem_append.mp hr with h | h
      · show historyOK (histOf _ r.id) r.status = true
        unfold histOf
        dsimp only
        rw [hist_filter_append, if_neg, List.append_nil]
        · exact h10 r h
        · simp only [beq_iff_eq]
          exact Nat.ne_of_gt (h4 r h)
      · rw [List.mem_singleton.mp h]
        show historyOK (histOf _ db.nextId) RideStatus.ACCEPTED = true
        unfold histOf
        dsimp only
        rw [hist_filter_append, histOf_fresh h5, List.nil_append, if_pos (by simp)]
        exact historyOK_single rfl rfl

theorem inv_update_ride_status (db : DB) (now : Nat) (ride_id : Nat)
    (new_status : RideStatus) (user_id : Nat) (notes : Option String)
    (hI : DBInv db) :
    DBInv (update_ride_status db now ride_id new_status user_id notes).1 := by
  unfold update_ride_status
  cases hfind : db.rides.find? (fun r => r.id == ride_id) with
  | none => exact hI
  | some ride =>
    dsimp only
    have hmem := List.mem_of_find?_eq_some hfind
    have hrid : ride.id = ride_id := by simpa using List.find?_some hfind
    obtain ⟨h1, h2, h3, h4, h5, h6, h7, h8, h9, h10⟩ := hI
    have hvid : ∀ r : Ride,
        (replaceRide ride_id (setRideStatus now new_status ride) r).id = r.id := by
      intro r
      unfold replaceRide
      split
      · next heq =>
        show ride.id = r.id
        rw [hrid, beq_iff_eq.mp heq]
      · rfl
    refine ⟨h1, h2, h3, ?_, ?_, h6, ?_, h8, h9, ?_⟩
    · intro r hr
      obtain ⟨r0, hr0, rfl⟩ := List.mem_map.mp hr
      rw [hvid]; exact h4 r0 hr0
    · intro e he
      rcases List.mem_append.mp he with h | h
      · exact h5 e h
      · rw [List.mem_singleton.mp h]
        show ride_id < db.nextId
        rw [← hrid]; exact h4 ride hmem
    · rw [map_key_of_preserve hvid]; exact h7
    · intro r hr
      obtain ⟨r0, hr0, rfl⟩ := List.mem_map.mp hr
      by_cases h0 : r0.id = ride_id
      · have hrr : replaceRide ride_id (setRideStatus now new_status ride) r0 =
            setRideStatus now new_status ride := by
          unfold replaceRide; rw [if_pos (by simp [h0])]
        rw [hrr]
        show historyOK (histOf _ ride.id) new_status = true
        unfold histOf
        dsimp only
        rw [hist_filter_append, if_pos (by simp [hrid])]
        exact historyOK_concat (h10 ride hmem) rfl rfl
      · have hrr : replaceRide ride_id (setRideStatus now new_status ride) r0 = r0 := by
          unfold replaceRide; rw [if_neg (by simp [h0])]
        rw [hrr]
        show historyOK (histOf _ r0.id) r0.status = true
        unfold histOf
        dsimp only
        rw [hist_filter_append, if_neg, List.append_nil]
        · exact h10 r0 hr0
        · simp only [beq_iff_eq]
          exact fun hh => h0 hh.symm

theorem inv_update_endpoint (db : DB) (now : Nat) (ride_id : Nat)
    (status_update : Option RideStatus) (user_id : Nat) (hI : DBInv db) :
    DBInv (update_ride_status_endpoint db now ride_id status_update user_id).1 := by
  unfold update_ride_status_endpoint
  cases hfind : db.rides.find? (fun r => r.id == ride_id) with
  | none => exact hI
  | some ride =>
    dsimp only
    split
    · exact hI
    · cases status_update with
      | some st => exact inv_update_ride_status db now ride_id st user_id none hI
      | none => exact hI

theorem inv_cancel_ride (db : DB) (now : Nat) (ride_id : Nat)
    (reason : CancellationReason) (details : Option String) (user_id : Nat)
    (hI : DBInv db) :
    DBInv (cancel_ride db now ride_id reason details user_id).1 := by
  unfold cancel_ride
  cases hfind : db.rides.find? (fun r => r.id == ride_id) with
  | none => exact hI
  | some ride =>
    dsimp only
    split
    · exact hI
    · split
      · exact hI
      · refine inv_update_ride_status _ now ride_id .CANCELLED user_id details ?_
        refine inv_rides_map db _ ?_ ?_ hI
        · intro r; unfold setCancellationInfo; split <;> rfl
        · intro r; unfold setCancellationInfo; split <;> rfl

theorem inv_add_ride_tracking (db : DB) (ride_id : Nat)
    (tracking : RideTrackingCreate) (driver_id : Nat) (hI : DBInv db) :
    DBInv (add_ride_tracking db ride_id tracking driver_id).1 := by
  unfold add_ride_tracking
  cases hfind : db.rides.find? (fun r => r.id == ride_id) with
  | none => exact hI
  | some ride =>
    dsimp only
    split
    · exact hI
    · exact inv_tracking_set db _ hI

theorem inv_rate_ride (db : DB) (ride_id : Nat) (rating : Nat)
    (feedback : Option String) (user_id : Nat) (hI : DBInv db) :
    DBInv (rate_ride db ride_id rating feedback user_id).1 := by
  unfold rate_ride
  cases hfind : db.rides.find? (fun r => r.id == ride_id) with
  | none => exact hI
  | some ride =>
    dsimp only
    split
    · exact hI
    · split
      · cases hrr : ride.rider_rating with
        | some v => exact hI
        | none =>
          refine inv_rides_map db _ ?_ ?_ hI
          · intro r; unfold setRiderRating; split <;> rfl
          · intro r; unfold setRiderRating; split <;> rfl
      · split
        · cases hdr : ride.driver_rating with
          | some v => exact hI
          | none =>
            refine inv_rides_map db _ ?_ ?_ hI
            · intro r; unfold setDriverRating; split <;> rfl
            · intro r; unfold setDriverRating; split <;> rfl
        · exact hI

theorem inv_accept_driver_offer (db : DB) (now : Nat) (offer_id rider_id : Nat)
    (hI : DBInv db) : DBInv (accept_driver_offer db now offer_id rider_id).1 := by
  unfold accept_driver_offer
  cases h1 : accept_offer db now offer_id rider_id with
  | mk db1 res =>
    cases res with
    | error e => exact hI
    | ok accepted =>
      have hI1 : DBInv db1 := by
        have := inv_accept_offer db now offer_id rider_id hI
        rw [h1] at this
        exact this
      dsimp only
      cases h2 : create_ride_from_accepted_offer db1 now accepted with
      | mk db2 res2 =>
        cases res2 with
        | error e => exact hI1
        | ok ride =>
          have := inv_create_ride db1 now accepted hI1
          rw [h2] at this
          exact this

theorem inv_step {a b : DB} (h : Step a b) (hI : DBInv a) : DBInv b := by
  cases h with
  | createRequest now request rider_id d hr =>
    exact inv_create_ride_request a now request rider_id d hr hI
  | sweep now => exact inv_sweep a now hI
  | createOffer now offer driver_id =>
    exact inv_create_driver_offer a now offer driver_id hI
  | acceptOffer now offer_id rider_id =>
    exact inv_accept_driver_offer a now offer_id rider_id hI
  | updateStatus now ride_id status_update user_id =>
    exact inv_update_endpoint a now ride_id status_update user_id hI
  | cancel now ride_id reason details user_id =>
    exact inv_cancel_ride a now ride_id reason details user_id hI
  | track ride_id tracking driver_id =>
    exact inv_add_ride_tracking a ride_id tracking driver_id hI
  | rate ride_id rating feedback user_id =>
    exact inv_rate_ride a ride_id rating feedback user_id hI

theorem inv_reachable {db : DB} (h : Reachable db) : DBInv db := by
  induction h with
  | init => exact inv_emptyDB
  | step _ s ih => exact inv_step s ih

theorem surge_for_hour_eq (hr : Nat) :
    FareCalculator.surge_for_hour hr =
      (if (7 ≤ hr ∧ hr < 9) ∨ (17 ≤ hr ∧ hr < 19) then (3/2 : ℚ) else 1) := by
  unfold FareCalculator.surge_for_hour FareCalculator.SURGE_HOURS
  by_cases hA : 7 ≤ hr ∧ hr < 9
  · simp [List.find?, hA, FareCalculator.SURGE_MULTIPLIER]
  · by_cases hB : 17 ≤ hr ∧ hr < 19
    · simp [List.find?, hA, hB, FareCalculator.SURGE_MULTIPLIER]
    · simp [List.find?, hA, hB]

/-- C3 (counterexample): at great-circle distance 2.6 km the source's
`FareCalculator.estimate_duration` truncates (`int(7.8) = 7` minutes) while
the specification's formula rounds (`round(7.8) = 8`), so the 08:00 total
fare of the code, `(30 + 2.6*15 + 7*2) * 1.5 = 124.5`, differs from the
`127.5` demanded by the claimed formula. -/
theorem estimate_duration_truncates_not_rounds :
    FareCalculator.estimate_duration (26/10) = 7 ∧
    spec_estimate_duration (26/10) = 8 ∧
    (FareCalculator.calculate_fare (26/10)
        (FareCalculator.estimate_duration (26/10)) 8).total_fare ≠
      (30 + (26/10 : ℚ) * 15 + (spec_estimate_duration (26/10) : ℚ) * 2) * (3/2) := by
  have hdur : FareCalculator.estimate_duration (26/10) = 7 := by
    unfold FareCalculator.estimate_duration pyInt
    norm_num [Int.floor_eq_iff]
  have hspec : spec_estimate_duration (26/10) = 8 := by
    unfold spec_estimate_duration spec_round
    norm_num [Int.floor_eq_iff]
  refine ⟨hdur, hspec, ?_⟩
  show (_ : ℚ) * FareCalculator.surge_for_hour 8 ≠ _
  rw [hdur, hspec, surge_for_hour_eq 8]
  norm_num [FareCalculator.BASE_FARE, FareCalculator.PER_KM_RATE,
    FareCalculator.PER_MINUTE_RATE]

/-- C3 (amended): for every nonnegative great-circle distance and every
evaluation hour, the fare pipeline returns
`duration = max(5, floor(distance_km * 3))` (truncation, not rounding),
`subtotal = 30 + distance_km*15 + duration*2`, a surge multiplier of `1.5`
exactly on the hours `[7,9) ∪ [17,19)` and `1.0` otherwise, and
`total_fare = subtotal * surge`; in particular the §8 scenario at distance
2.6 km evaluated at 08:00 yields the deterministic total `124.5`. -/
theorem fare_formula_trunc :
    (∀ (d : ℚ) (hr : Nat), 0 ≤ d →
      FareCalculator.estimate_duration d = max 5 ⌊d * 3⌋ ∧
      (FareCalculator.calculate_fare d (FareCalculator.estimate_duration d) hr).subtotal =
        30 + d * 15 + (FareCalculator.estimate_duration d : ℚ) * 2 ∧
      (FareCalculator.calculate_fare d
          (FareCalculator.estimate_duration d) hr).surge_multiplier =
        (if (7 ≤ hr ∧ hr < 9) ∨ (17 ≤ hr ∧ hr < 19) then (3/2 : ℚ) else 1) ∧
      (FareCalculator.calculate_fare d (FareCalculator.estimate_duration d) hr).total_fare =
        (30 + d * 15 + (FareCalculator.estimate_duration d : ℚ) * 2) *
          (if (7 ≤ hr ∧ hr < 9) ∨ (17 ≤ hr ∧ hr < 19) then (3/2 : ℚ) else 1)) ∧
    (FareCalculator.calculate_fare (26/10)
        (FareCalculator.estimate_duration (26/10)) 8).total_fare = 249/2 := by
  constructor
  · intro d hr hd
    refine ⟨?_, rfl, surge_for_hour_eq hr, ?_⟩
    · unfold FareCalculator.estimate_duration pyInt
      rw [if_pos (by positivity)]
    · show (_ : ℚ) * FareCalculator.surge_for_hour hr = _
      rw [surge_for_hour_eq hr]
      norm_num [FareCalculator.BASE_FARE, FareCalculator.PER_KM_RATE,
        FareCalculator.PER_MINUTE_RATE]
  · have hdur : FareCalculator.estimate_duration (26/10) = 7 := by
      unfold FareCalculator.estimate_duration pyInt
      norm_num [Int.floor_eq_iff]
    show (_ : ℚ) * FareCalculator.surge_for_hour 8 = _
    rw [hdur, surge_for_hour_eq 8]
    norm_num [FareCalculator.BASE_FARE, FareCalculator.PER_KM_RATE,
      FareCalculator.PER_MINUTE_RATE]

/-- C3 (witness): the amended fare theorem instantiated at distance 2.6 km
and hour 8. -/
theorem fare_formula_trunc_witness :
    (0:ℚ) ≤ 26/10 ∧
    FareCalculator.estimate_duration (26/10) = max 5 ⌊(26/10 : ℚ) * 3⌋ := by
  exact ⟨by norm_num, (fare_formula_trunc.1 (26/10) 8 (by norm_num)).1⟩

theorem accept_offer_ok {db : DB} {now offer_id rider_id : Nat}
    {db1 : DB} {off : DriverRideOffer}
    (h : accept_offer db now offer_id rider_id = (db1, .ok off)) :
    ∃ A, db.offers.find? (fun o => o.id == offer_id) = some A ∧
      off = { A with is_accepted := true } ∧
      A.is_active = true ∧ now < A.expires_at ∧
      db1 = { db with
        offers := db.offers.map (acceptUpdateOffer offer_id A.ride_request_id)
        requests := db.requests.map (deactivateRequest A.ride_request_id) } := by
  unfold accept_offer at h
  cases hfind : db.offers.find? (fun o => o.id == offer_id) with
  | none => rw [hfind] at h; simp at h
  | some A =>
    rw [hfind] at h
    dsimp only at h
    by_cases hguard : (!A.is_active || decide (A.expires_at ≤ now)) = true
    · rw [if_pos hguard] at h; simp at h
    · rw [if_neg hguard] at h
      have hAact : A.is_active = true := by
        cases hact : A.is_active
        · exfalso; apply hguard; rw [hact]; rfl
        · rfl
      have hAexp : now < A.expires_at := by
        by_contra hle
        apply hguard
        rw [decide_eq_true (Nat.le_of_not_lt hle)]
        simp
      cases hreq : db.requests.find? (fun r =>
          r.id == A.ride_request_id && r.rider_id == rider_id) with
      | none => rw [hreq] at h; simp at h
      | some R =>
        rw [hreq] at h
        dsimp only at h
        rw [Prod.mk.injEq] at h
        obtain ⟨hdb, hoff⟩ := h
        rw [Except.ok.injEq] at hoff
        exact ⟨A, rfl, hoff.symm, hAact, hAexp, hdb.symm⟩

theorem create_ride_ok {db : DB} {now : Nat} {offer : DriverRideOffer}
    {db2 : DB} {ride : Ride}
    (h : create_ride_from_accepted_offer db now offer = (db2, .ok ride)) :
    ∃ rq, db.requests.find? (fun r => r.id == offer.ride_request_id) = some rq ∧
      ride.driver_id = offer.driver_id ∧ ride.rider_id = rq.rider_id ∧
      ride.status = .ACCEPTED ∧ ride.id = db.nextId ∧
      ride.estimated_fare = offer.offered_fare ∧
      db2 = { db with
        rides := db.rides ++ [ride]
        status_history := db.status_history ++
          [{ ride_id := db.nextId, previous_status := none,
             new_status := .ACCEPTED, changed_by := offer.driver_id,
             notes := none }]
        nextId := db.nextId + 1 } := by
  unfold create_ride_from_accepted_offer at h
  cases hreq : db.requests.find? (fun r => r.id == offer.ride_request_id) with
  | none => rw [hreq] at h; simp at h
  | some rq =>
    rw [hreq] at h
    dsimp only at h
    rw [Prod.mk.injEq] at h
    obtain ⟨hdb, hride⟩ := h
    rw [Except.ok.injEq] at hride
    refine ⟨rq, rfl, ?_, ?_, ?_, ?_, ?_, ?_⟩
    · rw [← hride]
    · rw [← hride]
    · rw [← hride]
    · rw [← hride]
    · rw [← hride]
    · rw [← hdb, ← hride]

theorem reach_dbW1 : Reachable dbW1 :=
  Reachable.step Reachable.init (Step.createRequest emptyDB 0 wReq 100 (26/10) 12)

theorem reach_dbW2 : Reachable dbW2 :=
  Reachable.step reach_dbW1 (Step.createOffer dbW1 1 wOff 200)

theorem reach_dbW3 : Reachable dbW3 :=
  Reachable.step reach_dbW2 (Step.acceptOffer dbW2 2 1 100)

theorem reach_dbW4 : Reachable dbW4 :=
  Reachable.step reach_dbW3 (Step.updateStatus dbW3 4 2 (some .COMPLETED) 100)

theorem accept_driver_offer_ok {db : DB} {now offer_id rider_id : Nat}
    {db' : DB} {ride : Ride}
    (h : accept_driver_offer db now offer_id rider_id = (db', .ok ride)) :
    ∃ db1 off, accept_offer db now offer_id rider_id = (db1, .ok off) ∧
      create_ride_from_accepted_offer db1 now off = (db', .ok ride) := by
  unfold accept_driver_offer at h
  cases h1 : accept_offer db now offer_id rider_id with
  | mk db1 res =>
    rw [h1] at h
    cases res with
    | error e => simp at h
    | ok off =>
      dsimp only at h
      cases h2 : create_ride_from_accepted_offer db1 now off with
      | mk db2 res2 =>
        rw [h2] at h
        cases res2 with
        | error e => simp at h
        | ok ride2 =>
          dsimp only at h
          rw [Prod.mk.injEq] at h
          obtain ⟨rfl, hr⟩ := h
          rw [Except.ok.injEq] at hr
          subst hr
          exact ⟨db1, off, rfl, h2⟩

/-- C1: whenever an accept-offer call on a reachable store succeeds, then in
the committed store the target offer A is accepted, every other offer on the
same request is inactive and unaccepted, the parent request is inactive, and
the created ride's driver is A's driver. -/
theorem accept_offer_success_postconditions (db : DB) (now : Nat)
    (offer_id rider_id : Nat) (db' : DB) (ride : Ride)
    (hreach : Reachable db)
    (hcall : accept_driver_offer db now offer_id rider_id = (db', .ok ride)) :
    ∃ A ∈ db.offers, A.id = offer_id ∧
      (∀ o ∈ db'.offers, o.id = offer_id → o.is_accepted = true) ∧
      (∀ o ∈ db'.offers, o.ride_request_id = A.ride_request_id →
        o.id ≠ offer_id → o.is_active = false ∧ o.is_accepted = false) ∧
      (∀ r ∈ db'.requests, r.id = A.ride_request_id → r.is_active = false) ∧
      ride.driver_id = A.driver_id := by
  obtain ⟨db1, off, h1, h2⟩ := accept_driver_offer_ok hcall
  obtain ⟨A, hfind, hoff, hAact, hAexp, hdb1⟩ := accept_offer_ok h1
  obtain ⟨rq, hrq, hdrv, hrider, hst, hid, hfare, hdb2⟩ := create_ride_ok h2
  have hAmem := List.mem_of_find?_eq_some hfind
  have hAid : A.id = offer_id := by simpa using List.find?_some hfind
  obtain ⟨h1i, h2i, h3i, h4i, h5i, h6i, h7i, h8i, h9i, h10i⟩ := inv_reachable hreach
  have hrival : ∀ c ∈ db.offers, c.is_accepted = true →
      c.ride_request_id = A.ride_request_id → c.id = offer_id := by
    intro c hc hcacc hcr
    by_contra hne
    have hAne : A.id ≠ c.id := by rw [hAid]; exact fun hh => hne hh.symm
    have hsib := h8i c hc hcacc A hAmem hcr.symm hAne
    rw [hAact] at hsib
    exact Bool.noConfusion hsib.1
  have hoffers : db'.offers =
      db.offers.map (acceptUpdateOffer offer_id A.ride_request_id) := by
    rw [hdb2, hdb1]
  have hreqs : db'.requests =
      db.requests.map (deactivateRequest A.ride_request_id) := by
    rw [hdb2, hdb1]
  refine ⟨A, hAmem, hAid, ?_, ?_, ?_, ?_⟩
  · intro o ho hoid
    rw [hoffers] at ho
    obtain ⟨o0, ho0, rfl⟩ := List.mem_map.mp ho
    rw [acceptUpdateOffer_id] at hoid
    rw [acceptUpdateOffer_target hoid]
  · intro o ho hor hone
    rw [hoffers] at ho
    obtain ⟨o0, ho0, rfl⟩ := List.mem_map.mp ho
    rw [acceptUpdateOffer_rrid] at hor
    rw [acceptUpdateOffer_id] at hone
    rw [acceptUpdateOffer_sibling hone hor]
    refine ⟨rfl, ?_⟩
    cases hacc0 : o0.is_accepted
    · rfl
    · exact absurd (hrival o0 ho0 hacc0 hor) hone
  · intro r hr hrid
    rw [hreqs] at hr
    obtain ⟨r0, hr0, rfl⟩ := List.mem_map.mp hr
    rw [deactivateRequest_id] at hrid
    rw [deactivateRequest_eq hrid]
  · rw [hdrv, hoff]

/-- C1 (witness): the postcondition theorem applied to the concrete
two-driver store `dbW2`, where rider 100 accepts offer 1. -/
theorem accept_offer_success_postconditions_witness :
    ∃ A ∈ dbW2.offers, A.id = 1 ∧
      (∀ o ∈ dbW3.offers, o.id = 1 → o.is_accepted = true) ∧
      (∀ o ∈ dbW3.offers, o.ride_request_id = A.ride_request_id →
        o.id ≠ 1 → o.is_active = false ∧ o.is_accepted = false) ∧
      (∀ r ∈ dbW3.requests, r.id = A.ride_request_id → r.is_active = false) ∧
      rideW.driver_id = A.driver_id :=
  accept_offer_success_postconditions dbW2 2 1 100 dbW3 rideW reach_dbW2 rfl

/-- C2 (code-bug exhibit): after rider 100's acceptance of offer 1 has
committed (store `dbW3`, one ride), a second accept-offer call on the very
same offer at time 3 — still inside the offer's window — succeeds again and
creates a second ride: `accept_offer` neither deactivates the accepted offer
itself nor re-checks the request's `is_active`. -/
theorem second_accept_same_offer_succeeds :
    (∃ o ∈ dbW3.offers, o.id = 1 ∧ o.is_accepted = true ∧ o.is_active = true) ∧
    dbW3.rides.length = 1 ∧
    isOkE (accept_driver_offer dbW3 3 1 100).2 = true ∧
    (accept_driver_offer dbW3 3 1 100).1.rides.length = 2 := by
  refine ⟨?_, ?_, ?_, ?_⟩ <;> decide

/-- C4 (code-bug exhibit): request 0 expires at time 2 and the sweep at
time 3 commits its deactivation; the acceptance of offer 1 at time 4 —
while the offer's own 5-minute window is still open — nevertheless succeeds
and creates a ride, instead of failing with OfferExpired or
RequestNotMatchable. -/
theorem accept_after_expiry_sweep_succeeds :
    dbX3.requests.all (fun r => !r.is_active) = true ∧
    (∃ o ∈ dbX3.offers, o.id = 1 ∧ o.is_active = true ∧ 4 < o.expires_at) ∧
    isOkE (accept_driver_offer dbX3 4 1 100).2 = true ∧
    (accept_driver_offer dbX3 4 1 100).1.rides.length = 1 := by
  refine ⟨?_, ?_, ?_, ?_⟩ <;> decide

/-- C5 (code-bug exhibit): ride 2 is COMPLETED in `dbW4`, yet a subsequent
tracking call by its driver succeeds and appends a tracking point, and a
subsequent status transition COMPLETED → STARTED succeeds and mutates the
ride: neither `add_ride_tracking` nor `update_ride_status` guards terminal
states. -/
theorem terminal_ride_still_mutable :
    ((dbW4.rides.find? (fun r => r.id == 2)).map (fun r => r.status)) =
      some .COMPLETED ∧
    isOkE (add_ride_tracking dbW4 2 wTrack 200).2 = true ∧
    (add_ride_tracking dbW4 2 wTrack 200).1.tracking.length = 1 ∧
    isOkE (update_ride_status_endpoint dbW4 5 2 (some .STARTED) 200).2 = true ∧
    (((update_ride_status_endpoint dbW4 5 2 (some .STARTED) 200).1.rides.find?
        (fun r => r.id == 2)).map (fun r => r.status)) = some .STARTED := by
  refine ⟨?_, ?_, ?_, ?_, ?_⟩ <;> decide

/-- C6: an accept-offer call whose target offer is missing, inactive, or
past its own expiry fails with OfferNotFound / OfferExpired and leaves the
store (offers, sibling offers, requests, rides) exactly unchanged. -/
theorem accept_invalid_offer_fails_unchanged (db : DB) (now : Nat)
    (offer_id rider_id : Nat)
    (hbad : ∀ o ∈ db.offers, o.id = offer_id →
      o.is_active = false ∨ o.expires_at ≤ now) :
    (accept_driver_offer db now offer_id rider_id).1 = db ∧
    ((accept_driver_offer db now offer_id rider_id).2 = .error .offerNotFound ∨
     (accept_driver_offer db now offer_id rider_id).2 =
       .error .offerExpiredOrInactive) := by
  unfold accept_driver_offer accept_offer
  cases hfind : db.offers.find? (fun o => o.id == offer_id) with
  | none => exact ⟨rfl, .inl rfl⟩
  | some A =>
    dsimp only
    have hA := hbad A (List.mem_of_find?_eq_some hfind)
      (by simpa using List.find?_some hfind)
    have hguard : (!A.is_active || decide (A.expires_at ≤ now)) = true := by
      rcases hA with h | h
      · rw [h]; rfl
      · rw [decide_eq_true h]; simp
    rw [if_pos hguard]
    exact ⟨rfl, .inr rfl⟩

/-- C6 (witness): in `dbW3` the only offer (id 1) is past its expiry at
time 10, so the acceptance call fails and changes nothing. -/
theorem accept_invalid_offer_fails_unchanged_witness :
    (accept_driver_offer dbW3 10 1 100).1 = dbW3 ∧
    ((accept_driver_offer dbW3 10 1 100).2 = .error .offerNotFound ∨
     (accept_driver_offer dbW3 10 1 100).2 = .error .offerExpiredOrInactive) :=
  accept_invalid_offer_fails_unchanged dbW3 10 1 100 (by decide)

/-- C8: submit-offer fails with RequestNotMatchable (the "Ride request not
found or expired" rejection) unless the target request is active and
unexpired at call time; fails with DuplicateOffer when the request is
matchable but the calling driver already holds an active offer on it; and
on success creates an offer expiring 5 minutes after creation whose fare
defaults to the request's estimated fare when no fare is supplied. -/
theorem create_driver_offer_contract :
    (∀ (db : DB) (now : Nat) (offer : DriverOfferCreate) (driver_id : Nat),
      (∀ r ∈ db.requests, r.id = offer.ride_request_id →
        ¬(r.is_active = true ∧ now < r.expires_at)) →
      create_driver_offer db now offer driver_id =
        (db, .error .requestNotFoundOrExpired)) ∧
    (∀ (db : DB) (now : Nat) (offer : DriverOfferCreate) (driver_id : Nat),
      (∃ r ∈ db.requests, r.id = offer.ride_request_id ∧ r.is_active = true ∧
        now < r.expires_at) →
      (∃ o ∈ db.offers, o.ride_request_id = offer.ride_request_id ∧
        o.driver_id = driver_id ∧ o.is_active = true) →
      create_driver_offer db now offer driver_id = (db, .error .duplicateOffer)) ∧
    (∀ (db : DB) (now : Nat) (offer : DriverOfferCreate) (driver_id : Nat)
      (db' : DB) (o : DriverRideOffer),
      create_driver_offer db now offer driver_id = (db', .ok o) →
      o.expires_at = now + 5 ∧ o.is_active = true ∧ o.is_accepted = false ∧
      db'.offers = db.offers ++ [o] ∧
      (offer.offered_fare = none →
        ∃ r ∈ db.requests, r.id = offer.ride_request_id ∧
          o.offered_fare = r.estimated_fare)) := by
  refine ⟨?_, ?_, ?_⟩
  · intro db now offer driver_id hmatch
    have hnone : db.requests.find? (fun r =>
        r.id == offer.ride_request_id && r.is_active &&
        decide (now < r.expires_at)) = none := by
      rw [List.find?_eq_none]
      intro r hr
      simp only [Bool.and_eq_true, beq_iff_eq, decide_eq_true_eq]
      rintro ⟨⟨hid, hact⟩, hlt⟩
      exact hmatch r hr hid ⟨hact, hlt⟩
    unfold create_driver_offer
    rw [hnone]
  · intro db now offer driver_id hreq hdup
    unfold create_driver_offer
    cases hfind : db.requests.find? (fun r =>
        r.id == offer.ride_request_id && r.is_active &&
        decide (now < r.expires_at)) with
    | none =>
      exfalso
      obtain ⟨r, hr, hid, hact, hlt⟩ := hreq
      have := List.find?_eq_none.mp hfind r hr
      simp only [Bool.and_eq_true, beq_iff_eq, decide_eq_true_eq] at this
      exact this ⟨⟨hid, hact⟩, hlt⟩
    | some rq =>
      dsimp only
      cases hoff : db.offers.find? (fun o =>
          o.ride_request_id == offer.ride_request_id && o.driver_id == driver_id &&
          o.is_active) with
      | none =>
        exfalso
        obtain ⟨o, ho, h1, h2, h3⟩ := hdup
        have := List.find?_eq_none.mp hoff o ho
        simp only [Bool.and_eq_true, beq_iff_eq] at this
        exact this ⟨⟨h1, h2⟩, h3⟩
      | some o0 => rfl
  · intro db now offer driver_id db' o h
    unfold create_driver_offer at h
    cases hfind : db.requests.find? (fun r =>
        r.id == offer.ride_request_id && r.is_active &&
        decide (now < r.expires_at)) with
    | none => rw [hfind] at h; simp at h
    | some rq =>
      rw [hfind] at h
      dsimp only at h
      cases hoff : db.offers.find? (fun o =>
          o.ride_request_id == offer.ride_request_id && o.driver_id == driver_id &&
          o.is_active) with
      | some o0 => rw [hoff] at h; simp at h
      | none =>
        rw [hoff] at h
        dsimp only at h
        rw [Prod.mk.injEq] at h
        obtain ⟨hdb, ho⟩ := h
        rw [Except.ok.injEq] at ho
        subst ho
        refine ⟨rfl, rfl, rfl, ?_, ?_⟩
        · rw [← hdb]
        · intro hnonefare
          refine ⟨rq, List.mem_of_find?_eq_some hfind, ?_, ?_⟩
          · have := List.find?_some hfind
            simp only [Bool.and_eq_true, beq_iff_eq, decide_eq_true_eq] at this
            exact this.1.1
          · show pyOrDefault offer.offered_fare rq.estimated_fare = rq.estimated_fare
            rw [hnonefare]
            rfl

/-- C8 (witness): the three branches exercised concretely — the request of
`dbW1` is expired at time 20; driver 200 already holds an active offer in
`dbW2`; driver 300's fare-less offer on `dbW1` succeeds with a 5-minute
expiry and the request's estimated fare. -/
theorem create_driver_offer_contract_witness :
    create_driver_offer dbW1 20 wOff 200 =
      (dbW1, .error .requestNotFoundOrExpired) ∧
    create_driver_offer dbW2 1 wOff 200 = (dbW2, .error .duplicateOffer) ∧
    (oW.expires_at = 1 + 5 ∧ oW.is_active = true ∧ oW.is_accepted = false ∧
      (create_driver_offer dbW1 1 wOffNoFare 300).1.offers = dbW1.offers ++ [oW] ∧
      (wOffNoFare.offered_fare = none →
        ∃ r ∈ dbW1.requests, r.id = wOffNoFare.ride_request_id ∧
          oW.offered_fare = r.estimated_fare)) :=
  ⟨create_driver_offer_contract.1 dbW1 20 wOff 200 (by decide),
   create_driver_offer_contract.2.1 dbW2 1 wOff 200 (by decide) (by decide),
   create_driver_offer_contract.2.2 dbW1 1 wOffNoFare 300 _ oW rfl⟩

/-- C9: rating fails InvalidState unless the ride is COMPLETED; a repeat
rating by the same party fails AlreadyRated with the store unchanged; an
allowed rating succeeds and sets exactly the calling party's rating and
feedback fields — the other party's fields, the ride's status, all other
rides, and the request/offer tables are untouched — so rider and driver may
each rate once, independently, in any order. -/
theorem rate_ride_contract :
    (∀ (db : DB) (ride_id rating : Nat) (feedback : Option String)
      (user_id : Nat) (ride : Ride),
      db.rides.find? (fun r => r.id == ride_id) = some ride →
      ride.status ≠ .COMPLETED →
      rate_ride db ride_id rating feedback user_id =
        (db, .error .canOnlyRateCompleted)) ∧
    (∀ (db : DB) (ride_id rating : Nat) (feedback : Option String)
      (user_id : Nat) (ride : Ride),
      db.rides.find? (fun r => r.id == ride_id) = some ride →
      ride.status = .COMPLETED → ride.rider_id = user_id →
      ride.rider_rating ≠ none →
      rate_ride db ride_id rating feedback user_id =
        (db, .error .alreadyRatedByRider)) ∧
    (∀ (db : DB) (ride_id rating : Nat) (feedback : Option String)
      (user_id : Nat) (ride : Ride),
      db.rides.find? (fun r => r.id == ride_id) = some ride →
      ride.status = .COMPLETED → ride.rider_id = user_id →
      ride.rider_rating = none →
      (rate_ride db ride_id rating feedback user_id).2 = .ok () ∧
      (∃ r' ∈ (rate_ride db ride_id rating feedback user_id).1.rides,
        r'.id = ride.id ∧ r'.rider_rating = some rating ∧
        r'.rider_feedback = feedback ∧ r'.driver_rating = ride.driver_rating ∧
        r'.driver_feedback = ride.driver_feedback ∧ r'.status = ride.status) ∧
      (∀ x ∈ db.rides, x.id ≠ ride_id →
        x ∈ (rate_ride db ride_id rating feedback user_id).1.rides) ∧
      (rate_ride db ride_id rating feedback user_id).1.requests = db.requests ∧
      (rate_ride db ride_id rating feedback user_id).1.offers = db.offers) ∧
    (∀ (db : DB) (ride_id rating : Nat) (feedback : Option String)
      (user_id : Nat) (ride : Ride),
      db.rides.find? (fun r => r.id == ride_id) = some ride →
      ride.status = .COMPLETED → ride.rider_id ≠ user_id →
      ride.driver_id = user_id → ride.driver_rating ≠ none →
      rate_ride db ride_id rating feedback user_id =
        (db, .error .alreadyRatedByDriver)) ∧
    (∀ (db : DB) (ride_id rating : Nat) (feedback : Option String)
      (user_id : Nat) (ride : Ride),
      db.rides.find? (fun r => r.id == ride_id) = some ride →
      ride.status = .COMPLETED → ride.rider_id ≠ user_id →
      ride.driver_id = user_id → ride.driver_rating = none →
      (rate_ride db ride_id rating feedback user_id).2 = .ok () ∧
      (∃ r' ∈ (rate_ride db ride_id rating feedback user_id).1.rides,
        r'.id = ride.id ∧ r'.driver_rating = some rating ∧
        r'.driver_feedback = feedback ∧ r'.rider_rating = ride.rider_rating ∧
        r'.rider_feedback = ride.rider_feedback ∧ r'.status = ride.status)) := by
  have hpred : ∀ (ride_id : Nat) (ride : Ride) (db : DB),
      db.rides.find? (fun r => r.id == ride_id) = some ride → ride.id = ride_id :=
    fun ride_id ride db hf => by simpa using List.find?_some hf
  refine ⟨?_, ?_, ?_, ?_, ?_⟩
  · intro db ride_id rating feedback user_id ride hfind hne
    unfold rate_ride
    rw [hfind]
    dsimp only
    rw [if_pos (by simp [hne])]
  · intro db ride_id rating feedback user_id ride hfind hst hrid hrr
    unfold rate_ride
    rw [hfind]
    dsimp only
    rw [if_neg (by simp [hst]), if_pos (by simp [hrid])]
    cases hv : ride.rider_rating with
    | none => exact absurd hv hrr
    | some v => rfl
  · intro db ride_id rating feedback user_id ride hfind hst hrid hrr
    unfold rate_ride
    rw [hfind]
    dsimp only
    rw [if_neg (by simp [hst]), if_pos (by simp [hrid]), hrr]
    dsimp only
    have hride_id := hpred ride_id ride db hfind
    have hset : setRiderRating ride_id rating feedback ride =
        { ride with rider_rating := some rating, rider_feedback := feedback } := by
      unfold setRiderRating
      rw [if_pos (by simp [hride_id])]
    refine ⟨rfl, ?_, ?_, rfl, rfl⟩
    · refine ⟨setRiderRating ride_id rating feedback ride,
        List.mem_map_of_mem _ (List.mem_of_find?_eq_some hfind), ?_⟩
      rw [hset]
      exact ⟨rfl, rfl, rfl, rfl, rfl, rfl⟩
    · intro x hx hxne
      have hxeq : setRiderRating ride_id rating feedback x = x := by
        unfold setRiderRating
        rw [if_neg (by simp [hxne])]
      exact hxeq ▸ List.mem_map_of_mem _ hx
  · intro db ride_id rating feedback user_id ride hfind hst hrne hdid hdr
    unfold rate_ride
    rw [hfind]
    dsimp only
    rw [if_neg (by simp [hst]), if_neg (by simp [hrne]), if_pos (by simp [hdid])]
    cases hv : ride.driver_rating with
    | none => exact absurd hv hdr
    | some v => rfl
  · intro db ride_id rating feedback user_id ride hfind hst hrne hdid hdr
    unfold rate_ride
    rw [hfind]
    dsimp only
    rw [if_neg (by simp [hst]), if_neg (by simp [hrne]), if_pos (by simp [hdid]), hdr]
    dsimp only
    have hride_id := hpred ride_id ride db hfind
    have hset : setDriverRating ride_id rating feedback ride =
        { ride with driver_rating := some rating, driver_feedback := feedback } := by
      unfold setDriverRating
      rw [if_pos (by simp [hride_id])]
    refine ⟨rfl, ?_⟩
    refine ⟨setDriverRating ride_id rating feedback ride,
      List.mem_map_of_mem _ (List.mem_of_find?_eq_some hfind), ?_⟩
    rw [hset]
    exact ⟨rfl, rfl, rfl, rfl, rfl, rfl⟩

/-- C9 (witness): the five rating branches exercised on concrete stores:
pre-completion rejection on `dbW3`, repeat-rider rejection on `dbW5`, the
rider's first rating on `dbW4`, repeat-driver rejection on `dbW6`, and the
driver's independent rating on `dbW5`. -/
theorem rate_ride_contract_witness :
    rate_ride dbW3 2 3 none 100 = (dbW3, .error .canOnlyRateCompleted) ∧
    rate_ride dbW5 2 3 none 100 = (dbW5, .error .alreadyRatedByRider) ∧
    ((rate_ride dbW4 2 5 none 100).2 = .ok () ∧
      (∃ r' ∈ (rate_ride dbW4 2 5 none 100).1.rides,
        r'.id = (rideIn dbW4 2).id ∧ r'.rider_rating = some 5 ∧
        r'.rider_feedback = none ∧
        r'.driver_rating = (rideIn dbW4 2).driver_rating ∧
        r'.driver_feedback = (rideIn dbW4 2).driver_feedback ∧
        r'.status = (rideIn dbW4 2).status) ∧
      (∀ x ∈ dbW4.rides, x.id ≠ 2 →
        x ∈ (rate_ride dbW4 2 5 none 100).1.rides) ∧
      (rate_ride dbW4 2 5 none 100).1.requests = dbW4.requests ∧
      (rate_ride dbW4 2 5 none 100).1.offers = dbW4.offers) ∧
    rate_ride dbW6 2 1 none 200 = (dbW6, .error .alreadyRatedByDriver) ∧
    ((rate_ride dbW5 2 4 (some "good") 200).2 = .ok () ∧
      (∃ r' ∈ (rate_ride dbW5 2 4 (some "good") 200).1.rides,
        r'.id = (rideIn dbW5 2).id ∧ r'.driver_rating = some 4 ∧
        r'.driver_feedback = some "good" ∧
        r'.rider_rating = (rideIn dbW5 2).rider_rating ∧
        r'.rider_feedback = (rideIn dbW5 2).rider_feedback ∧
        r'.status = (rideIn dbW5 2).status)) :=
  ⟨rate_ride_contract.1 dbW3 2 3 none 100 (rideIn dbW3 2) rfl (by decide),
   rate_ride_contract.2.1 dbW5 2 3 none 100 (rideIn dbW5 2) rfl (by decide)
     (by decide) (by decide),
   rate_ride_contract.2.2.1 dbW4 2 5 none 100 (rideIn dbW4 2) rfl (by decide)
     (by decide) (by decide),
   rate_ride_contract.2.2.2.1 dbW6 2 1 none 200 (rideIn dbW6 2) rfl (by decide)
     (by decide) (by decide) (by decide),
   rate_ride_contract.2.2.2.2 dbW5 2 4 (some "good") 200 (rideIn dbW5 2) rfl
     (by decide) (by decide) (by decide) (by decide)⟩

/-- C7: each successful transition appends exactly one history entry with
the previous and new status and stamps the milestone timestamp matching the
new status (`DRIVER_ARRIVED`→driver_arrived_at, `STARTED`→started_at,
`COMPLETED`→ended_at, `CANCELLED`→cancelled_at); and on every reachable
store every ride's history begins with the creation entry (null → ACCEPTED),
chains consecutively, and replays to the ride's current status. -/
theorem ride_history_contract :
    (∀ (db : DB) (now ride_id : Nat) (st : RideStatus) (user_id : Nat)
      (notes : Option String) (db' : DB) (ride' : Ride),
      update_ride_status db now ride_id st user_id notes = (db', .ok ride') →
      ∃ old ∈ db.rides, old.id = ride_id ∧
        db'.status_history = db.status_history ++
          [{ ride_id := ride_id, previous_status := some old.status,
             new_status := st, changed_by := user_id, notes := notes }] ∧
        ride'.status = st ∧
        (st = .DRIVER_ARRIVED → ride'.driver_arrived_at = some now) ∧
        (st = .STARTED → ride'.started_at = some now) ∧
        (st = .COMPLETED → ride'.ended_at = some now) ∧
        (st = .CANCELLED → ride'.cancelled_at = some now)) ∧
    (∀ db : DB, Reachable db → ∀ r ∈ db.rides,
      historyOK (histOf db r.id) r.status = true) := by
  constructor
  · intro db now ride_id st user_id notes db' ride' h
    unfold update_ride_status at h
    cases hfind : db.rides.find? (fun r => r.id == ride_id) with
    | none => rw [hfind] at h; simp at h
    | some ride =>
      rw [hfind] at h
      dsimp only at h
      rw [Prod.mk.injEq] at h
      obtain ⟨hdb, hr⟩ := h
      rw [Except.ok.injEq] at hr
      refine ⟨ride, List.mem_of_find?_eq_some hfind,
        by simpa using List.find?_some hfind, ?_, ?_, ?_, ?_, ?_, ?_⟩
      · rw [← hdb]
      · rw [← hr]; rfl
      · intro hst
        rw [← hr]
        show (if st = RideStatus.DRIVER_ARRIVED then some now
          else ride.driver_arrived_at) = some now
        rw [if_pos hst]
      · intro hst
        rw [← hr]
        show (if st = RideStatus.STARTED then some now
          else ride.started_at) = some now
        rw [if_pos hst]
      · intro hst
        rw [← hr]
        show (if st = RideStatus.COMPLETED then some now
          else ride.ended_at) = some now
        rw [if_pos hst]
      · intro hst
        rw [← hr]
        show (if st = RideStatus.CANCELLED then some now
          else ride.cancelled_at) = some now
        rw [if_pos hst]
  · intro db hreach
    exact (inv_reachable hreach).hist_ok

/-- C7 (witness): the transition theorem applied to the concrete completion
of ride 2, and the replay invariant read off the reachable store `dbW4`. -/
theorem ride_history_contract_witness :
    (∃ old ∈ dbW3.rides, old.id = 2 ∧
      dbW4.status_history = dbW3.status_history ++
        [{ ride_id := 2, previous_status := some old.status,
           new_status := .COMPLETED, changed_by := 100, notes := none }] ∧
      rideW4.status = .COMPLETED ∧
      (RideStatus.COMPLETED = .DRIVER_ARRIVED →
        rideW4.driver_arrived_at = some 4) ∧
      (RideStatus.COMPLETED = .STARTED → rideW4.started_at = some 4) ∧
      (RideStatus.COMPLETED = .COMPLETED → rideW4.ended_at = some 4) ∧
      (RideStatus.COMPLETED = .CANCELLED → rideW4.cancelled_at = some 4)) ∧
    (∀ r ∈ dbW4.rides, historyOK (histOf dbW4 r.id) r.status = true) :=
  ⟨ride_history_contract.1 dbW3 4 2 .COMPLETED 100 none dbW4 rideW4 rfl,
   ride_history_contract.2 dbW4 reach_dbW4⟩

theorem update_ride_status_offers (db : DB) (now rid : Nat) (st : RideStatus)
    (uid : Nat) (notes : Option String) :
    (update_ride_status db now rid st uid notes).1.offers = db.offers := by
  unfold update_ride_status
  cases hfind : db.rides.find? (fun r => r.id == rid) with
  | none => rfl
  | some ride => rfl

theorem update_endpoint_offers (db : DB) (now rid : Nat)
    (st? : Option RideStatus) (uid : Nat) :
    (update_ride_status_endpoint db now rid st? uid).1.offers = db.offers := by
  unfold update_ride_status_endpoint
  cases hfind : db.rides.find? (fun r => r.id == rid) with
  | none => rfl
  | some ride =>
    dsimp only
    split
    · rfl
    · cases st? with
      | some st => exact update_ride_status_offers db now rid st uid none
      | none => rfl

theorem cancel_ride_offers (db : DB) (now rid : Nat)
    (reason : CancellationReason) (details : Option String) (uid : Nat) :
    (cancel_ride db now rid reason details uid).1.offers = db.offers := by
  unfold cancel_ride
  cases hfind : db.rides.find? (fun r => r.id == rid) with
  | none => rfl
  | some ride =>
    dsimp only
    split
    · rfl
    · split
      · rfl
      · exact update_ride_status_offers _ now rid .CANCELLED uid details

theorem add_tracking_offers (db : DB) (rid : Nat) (t : RideTrackingCreate)
    (did : Nat) :
    (add_ride_tracking db rid t did).1.offers = db.offers := by
  unfold add_ride_tracking
  cases hfind : db.rides.find? (fun r => r.id == rid) with
  | none => rfl
  | some ride =>
    dsimp only
    split
    · rfl
    · rfl

theorem rate_ride_offers (db : DB) (rid rating : Nat) (fb : Option String)
    (uid : Nat) : (rate_ride db rid rating fb uid).1.offers = db.offers := by
  unfold rate_ride
  cases hfind : db.rides.find? (fun r => r.id == rid) with
  | none => rfl
  | some ride =>
    dsimp only
    split
    · rfl
    · split
      · cases ride.rider_rating <;> rfl
      · split
        · cases ride.driver_rating <;> rfl
        · rfl

theorem accept_deactivation_rival {a db1 : DB} {now offer_id rider_id : Nat}
    {off : DriverRideOffer}
    (h1 : accept_offer a now offer_id rider_id = (db1, .ok off))
    (hnd : (a.offers.map (fun o => o.id)).Nodup)
    {o : DriverRideOffer} (ho : o ∈ a.offers) (hoact : o.is_active = true)
    {o' : DriverRideOffer} (ho' : o' ∈ db1.offers) (hid : o'.id = o.id)
    (hinact : o'.is_active = false) :
    ∃ A ∈ a.offers, A.id = offer_id ∧
      A.ride_request_id = o.ride_request_id ∧ offer_id ≠ o.id := by
  obtain ⟨A, hfind, hoff, hAact, hAexp, hdb1⟩ := accept_offer_ok h1
  have hAmem := List.mem_of_find?_eq_some hfind
  have hAid : A.id = offer_id := by simpa using List.find?_some hfind
  rw [hdb1] at ho'
  obtain ⟨o0, ho0, rfl⟩ := List.mem_map.mp ho'
  rw [acceptUpdateOffer_id] at hid
  have ho0o : o0 = o := eq_of_key_nodup hnd ho0 ho hid
  subst ho0o
  by_cases h0 : o0.id = offer_id
  · rw [acceptUpdateOffer_target h0] at hinact
    have hfalse : o0.is_active = false := hinact
    rw [hoact] at hfalse
    exact Bool.noConfusion hfalse
  · by_cases h0r : o0.ride_request_id = A.ride_request_id
    · exact ⟨A, hAmem, hAid, h0r.symm, fun hh => h0 hh.symm⟩
    · rw [acceptUpdateOffer_other h0 h0r] at hinact
      rw [hoact] at hinact
      exact Bool.noConfusion hinact

/-- C10: an offer's `is_active` is cleared only by a rival acceptance on the
same request: the expiry sweep leaves the offer table untouched (there is no
offer-expiry sweep), any step of the system that deactivates a live offer is
an accept call whose target is a different offer of the same request, and a
driver whose still-active offer on a request has merely expired gets
DuplicateOffer on a new submit-offer call while the request is matchable. -/
theorem offer_deactivation_only_by_rival_acceptance :
    (∀ (db : DB) (now : Nat),
      (deactivate_expired_requests db now).1.offers = db.offers) ∧
    (∀ (a b : DB), Reachable a → Step a b →
      ∀ o ∈ a.offers, o.is_active = true →
      ∀ o' ∈ b.offers, o'.id = o.id → o'.is_active = false →
      ∃ now offer_id rider_id,
        b = (accept_driver_offer a now offer_id rider_id).1 ∧
        ∃ A ∈ a.offers, A.id = offer_id ∧
          A.ride_request_id = o.ride_request_id ∧ offer_id ≠ o.id) ∧
    (∀ (db : DB) (now : Nat) (offer : DriverOfferCreate) (driver_id : Nat),
      (∃ r ∈ db.requests, r.id = offer.ride_request_id ∧ r.is_active = true ∧
        now < r.expires_at) →
      (∃ o ∈ db.offers, o.ride_request_id = offer.ride_request_id ∧
        o.driver_id = driver_id ∧ o.is_active = true ∧ o.expires_at ≤ now) →
      create_driver_offer db now offer driver_id =
        (db, .error .duplicateOffer)) := by
  have hsame : ∀ (a : DB), (a.offers.map (fun o => o.id)).Nodup →
      ∀ o ∈ a.offers, o.is_active = true →
      ∀ o' ∈ a.offers, o'.id = o.id → o'.is_active = false → False := by
    intro a hnd o ho hoact o' ho' hid hinact
    have : o' = o := eq_of_key_nodup hnd ho' ho hid
    rw [this, hoact] at hinact
    exact Bool.noConfusion hinact
  refine ⟨?_, ?_, ?_⟩
  · intro db now; rfl
  · intro a b hreach hstep o ho hoact o' ho' hid hinact
    have hnd := (inv_reachable hreach).offers_nodup
    cases hstep with
    | createRequest now request rider_id d hrr =>
      exact absurd (hsame a hnd o ho hoact o' ho' hid hinact) not_false
    | sweep now =>
      exact absurd (hsame a hnd o ho hoact o' ho' hid hinact) not_false
    | createOffer now offer driver_id =>
      exfalso
      unfold create_driver_offer at ho'
      cases hfind : a.requests.find? (fun r =>
          r.id == offer.ride_request_id && r.is_active &&
          decide (now < r.expires_at)) with
      | none =>
        rw [hfind] at ho'
        exact hsame a hnd o ho hoact o' ho' hid hinact
      | some rq =>
        rw [hfind] at ho'
        dsimp only at ho'
        cases hoff : a.offers.find? (fun x =>
            x.ride_request_id == offer.ride_request_id &&
            x.driver_id == driver_id && x.is_active) with
        | some o0 =>
          rw [hoff] at ho'
          exact hsame a hnd o ho hoact o' ho' hid hinact
        | none =>
          rw [hoff] at ho'
          dsimp only at ho'
          rcases List.mem_append.mp ho' with hmem | hmem
          · exact hsame a hnd o ho hoact o' hmem hid hinact
          · rw [List.mem_singleton.mp hmem] at hinact
            exact Bool.noConfusion hinact
    | acceptOffer now offer_id rider_id =>
      refine ⟨now, offer_id, rider_id, rfl, ?_⟩
      unfold accept_driver_offer at ho'
      cases h1 : accept_offer a now offer_id rider_id with
      | mk db1 res =>
        rw [h1] at ho'
        cases res with
        | error e =>
          exact absurd (hsame a hnd o ho hoact o' ho' hid hinact) not_false
        | ok accepted =>
          dsimp only at ho'
          cases h2 : create_ride_from_accepted_offer db1 now accepted with
          | mk db2 res2 =>
            rw [h2] at ho'
            cases res2 with
            | error e =>
              exact accept_deactivation_rival h1 hnd ho hoact ho' hid hinact
            | ok ride =>
              obtain ⟨rq, hrq, hdrv, hrider, hst, hid2, hfare, hdb2⟩ :=
                create_ride_ok h2
              have ho'1 : o' ∈ db1.offers := by
                rw [hdb2] at ho'
                exact ho'
              exact accept_deactivation_rival h1 hnd ho hoact ho'1 hid hinact
    | updateStatus now ride_id st? user_id =>
      rw [update_endpoint_offers] at ho'
      exact absurd (hsame a hnd o ho hoact o' ho' hid hinact) not_false
    | cancel now ride_id reason details user_id =>
      rw [cancel_ride_offers] at ho'
      exact absurd (hsame a hnd o ho hoact o' ho' hid hinact) not_false
    | track ride_id t driver_id =>
      rw [add_tracking_offers] at ho'
      exact absurd (hsame a hnd o ho hoact o' ho' hid hinact) not_false
    | rate ride_id rating feedback user_id =>
      rw [rate_ride_offers] at ho'
      exact absurd (hsame a hnd o ho hoact o' ho' hid hinact) not_false
  · intro db now offer driver_id hreq hdup
    obtain ⟨r, hr, hid, hact, hlt⟩ := hreq
    obtain ⟨o, ho, h1, h2, h3, _⟩ := hdup
    unfold create_driver_offer
    cases hfind : db.requests.find? (fun r =>
        r.id == offer.ride_request_id && r.is_active &&
        decide (now < r.expires_at)) with
    | none =>
      exfalso
      have := List.find?_eq_none.mp hfind r hr
      simp only [Bool.and_eq_true, beq_iff_eq, decide_eq_true_eq] at this
      exact this ⟨⟨hid, hact⟩, hlt⟩
    | some rq =>
      dsimp only
      cases hoff : db.offers.find? (fun x =>
          x.ride_request_id == offer.ride_request_id && x.driver_id == driver_id &&
          x.is_active) with
      | none =>
        exfalso
        have := List.find?_eq_none.mp hoff o ho
        simp only [Bool.and_eq_true, beq_iff_eq] at this
        exact this ⟨⟨h1, h2⟩, h3⟩
      | some o0 => rfl

theorem reach_dbW2b : Reachable dbW2b :=
  Reachable.step reach_dbW2 (Step.createOffer dbW2 1 wOffB 300)

/-- C10 (witness): on the two-offer store, driver 300's offer is deactivated
exactly by rider 100's acceptance of the rival offer 1; and at time 7 —
request 0 still matchable, offer 1 expired (at 6) but still active — driver
200's fresh submit-offer call fails with DuplicateOffer. -/
theorem offer_deactivation_only_by_rival_acceptance_witness :
    (deactivate_expired_requests dbW2b 3).1.offers = dbW2b.offers ∧
    (∃ now offer_id rider_id,
      dbW3b = (accept_driver_offer dbW2b now offer_id rider_id).1 ∧
      ∃ A ∈ dbW2b.offers, A.id = offer_id ∧
        A.ride_request_id = offerB.ride_request_id ∧ offer_id ≠ offerB.id) ∧
    create_driver_offer dbW2 7 wOff 200 = (dbW2, .error .duplicateOffer) :=
  ⟨offer_deactivation_only_by_rival_acceptance.1 dbW2b 3,
   offer_deactivation_only_by_rival_acceptance.2.1 dbW2b dbW3b reach_dbW2b
     (Step.acceptOffer dbW2b 2 1 100) offerB (by decide) (by decide)
     offerBafter (by decide) (by decide) (by decide),
   offer_deactivation_only_by_rival_acceptance.2.2 dbW2 7 wOff 200 (by decide)
     (by decide)⟩
